import Mathlib

/-!
Verification development for the agent orchestration core of the Chin-Hin
employee-assistant backend (`backend/app/agents/function_agent.py`).

The Python source is shallowly embedded: messages become a tagged union,
the imperative window-trimming loop of `agent_node`, the rotation manager
(`get_next_model_config`, `rotate_to_next_model`), the retry supervisor of
`agentic_chat`, the LangGraph reasoning loop, and the tool handlers become
executable Lean functions.  External collaborators (database, model
backend) are passed in as explicit oracle arguments.
-/

set_option maxHeartbeats 1000000

/-- A requested tool call carried by an agent message
(`tool_calls` entries: name + arguments). -/
structure ToolCall where
  name : String
  args : List (String × String)
deriving DecidableEq, Repr

/-- Message kinds of the conversation sequence, mirroring the
langchain message classes used by the source: `SystemMessage`,
`HumanMessage`, `AIMessage` (whose `tool_calls` list may be empty —
a plain textual agent message — or non-empty — a tool invocation),
and `ToolMessage` (a tool result). -/
inductive Msg where
  | system (content : String)
  | human (content : String)
  | ai (content : String) (tool_calls : List ToolCall)
  | toolMsg (content : String)
deriving DecidableEq, Repr, Inhabited

/-- `MAX_HISTORY_MESSAGES = 6` (source line 826). -/
def MAX_HISTORY_MESSAGES : Nat := 6

/-- The static system prompt (source `SYSTEM_PROMPT`). -/
def SYSTEM_PROMPT : String :=
  "Kau Chin Hin AI Assistant aka \"Bestie\" office. BM/EN sempoi, Gen Z vibe (guna emoji, slang macam cun, ngam, bestie). 🤖✨\n\nVIBE:\n- Relax tapi pro. Jangan skema sangat. 🤙\n- Guna \"Bestie\", \"Beb\", \"Bro\" atau \"Sis\" ikut kesesuaian.\n\nRULES:\n1. TOOLS IS KING: JANGAN ASUMME. Guna tools untuk check data.\n2. USER_ID: Dah ada dalam context, jangan tanya lagi. Terus buat kerja.\n3. EYES: Boleh \"tengok\" resit/invoice. Extract baki, merchant, date untuk claim submission.\n4. KNOWLEDGE: Guna search_policy untuk apa-apa soalan pasal handbook/rules Chin Hin.\n5. PROACTIVE: Kalau nampak unread notifications, \"menyampit\" sikit kat user sebagai friendly reminder.\n6. ERROR: Kalau tool fail, explain chill-chill & suggest plan B.\n7. CONFIRM: Confirm setiap action dengan details yang clear.\n\nTOOLS: Leave (balance/apply/history), Rooms (list/book), Claims (submit/history), Policy (search), Date info, Nudges (list).\n"

/-- The per-turn dynamic system prompt built in `agent_node`
(`current_system_prompt`, source line 947). -/
def currentSystemPrompt (user_id : String) : String :=
  SYSTEM_PROMPT ++ "\n\nCURRENT USER ID: " ++ user_id ++
    "\nGunakan ID ini untuk semua tool calls yang memerlukan user_id."

/-- Replace the first `SystemMessage` of the list with a fresh one holding
`prompt` (source lines 950-957); `none` when no system message is present. -/
def replaceFirstSystem (prompt : String) : List Msg → Option (List Msg)
  | [] => none
  | Msg.system _ :: rest => some (Msg.system prompt :: rest)
  | m :: rest => (replaceFirstSystem prompt rest).map (m :: ·)

/-- The inner `has_response` scan of `agent_node` (source lines 975-981):
from the position after a tool-calling agent message, look forward for a
`ToolMessage`, stopping at the first `HumanMessage`. -/
def hasResponse : List Msg → Bool
  | [] => false
  | Msg.toolMsg _ :: _ => true
  | Msg.human _ :: _ => false
  | _ :: rest => hasResponse rest

/-- The `safe_start` loop of `agent_node` (source lines 969-985), embedded
with the enumeration index `i` and the accumulator `acc` (the current
value of `safe_start`) made explicit. -/
def safeStartLoop : List Msg → Nat → Nat → Nat
  | [], _, acc => acc
  | m :: rest, i, acc =>
    match m with
    | Msg.toolMsg _ => safeStartLoop rest (i + 1) (i + 1)
    | Msg.ai _ tcs =>
      if tcs.isEmpty then acc
      else if hasResponse rest then safeStartLoop rest (i + 1) acc
      else safeStartLoop rest (i + 1) (i + 1)
    | _ => acc

/-- `safe_start` as computed by the source loop on `recent_msgs`. -/
def safeStart (recent : List Msg) : Nat := safeStartLoop recent 0 0

/-- Recursive characterisation of `safeStart` (proved equal below),
convenient for induction. -/
def safeStartRec : List Msg → Nat
  | [] => 0
  | Msg.toolMsg _ :: rest => safeStartRec rest + 1
  | Msg.ai _ tcs :: rest =>
    if tcs.isEmpty then 0
    else if hasResponse rest then
      (if safeStartRec rest = 0 then 0 else safeStartRec rest + 1)
    else safeStartRec rest + 1
  | _ => 0

/-- System-message refresh of `agent_node` (source lines 946-959): replace
the first system message with the fresh per-turn prompt, or prepend one
when none is present. -/
def prepSystem (user_id : String) (msgs0 : List Msg) : List Msg :=
  match replaceFirstSystem (currentSystemPrompt user_id) msgs0 with
  | some ms => ms
  | none => Msg.system (currentSystemPrompt user_id) :: msgs0

/-- The sliding-window truncation of `agent_node` (source lines 961-987),
applied after the system-message refresh. -/
def agentWindow (user_id : String) (msgs0 : List Msg) : List Msg :=
  let msgs := prepSystem user_id msgs0
  if msgs.length > MAX_HISTORY_MESSAGES + 1 then
    let system_msg := msgs.headI
    let recent := msgs.drop (msgs.length - MAX_HISTORY_MESSAGES)
    system_msg :: recent.drop (safeStart recent)
  else msgs

/-- Is the message a `SystemMessage`? -/
def isSystemB : Msg → Bool
  | Msg.system _ => true
  | _ => false

/-- Is the message a `ToolMessage`? -/
def isToolMsgB : Msg → Bool
  | Msg.toolMsg _ => true
  | _ => false

/-- Is the message an `AIMessage` with a non-empty `tool_calls` list
(a tool invocation)? -/
def isToolCallAI : Msg → Bool
  | Msg.ai _ tcs => !tcs.isEmpty
  | _ => false

/-- `true` when the list does not begin with a `ToolMessage`
(an orphaned tool result). -/
def noToolHead : List Msg → Bool
  | Msg.toolMsg _ :: _ => false
  | _ => true

/-- No `SystemMessage` occurs anywhere in the list. -/
def noSystem (l : List Msg) : Bool := l.all (fun m => !isSystemB m)

/-- Parser modes for the well-formedness check of a message sequence. -/
inductive WfMode where
  | norm
  | needTool
  | inTools
deriving DecidableEq

/-- Structural well-formedness of a message sequence, in the sense of the
spec's data model: every tool-calling agent message is immediately
followed by one or more tool-result messages, and tool-result messages
occur nowhere else.  `norm` is the ordinary mode, `needTool` demands at
least one following tool result, `inTools` permits further ones. -/
def wfM : WfMode → List Msg → Bool
  | WfMode.needTool, [] => false
  | _, [] => true
  | mode, m :: rest =>
    match mode, m with
    | WfMode.needTool, Msg.toolMsg _ => wfM WfMode.inTools rest
    | WfMode.needTool, _ => false
    | WfMode.inTools, Msg.toolMsg _ => wfM WfMode.inTools rest
    | _, Msg.toolMsg _ => false
    | _, Msg.ai _ tcs =>
      if tcs.isEmpty then wfM WfMode.norm rest else wfM WfMode.needTool rest
    | _, _ => wfM WfMode.norm rest

/-- Well-formed message sequence: block structure with no orphan
tool invocations or tool results. -/
def wfB (l : List Msg) : Bool := wfM WfMode.norm l

-- Sanity checks of the embedding on small concrete inputs.
example : wfB [Msg.human "a", Msg.ai "b" [⟨"t", []⟩], Msg.toolMsg "r", Msg.ai "c" []] = true := by
  decide
example : wfB [Msg.human "a", Msg.ai "b" [⟨"t", []⟩], Msg.human "x"] = false := by decide
example : wfB [Msg.toolMsg "r"] = false := by decide
example :
    safeStart [Msg.ai "b" [⟨"t", []⟩], Msg.toolMsg "r", Msg.human "x",
      Msg.human "y", Msg.human "z", Msg.human "w"] = 2 := by decide
example :
    safeStart [Msg.human "q", Msg.ai "b" [⟨"t", []⟩], Msg.human "x",
      Msg.human "y", Msg.human "z", Msg.human "w"] = 0 := by decide

/-! ### Lemmas about the window-trimming scan -/

theorem safeStartLoop_eq (l : List Msg) :
    ∀ i acc, safeStartLoop l i acc =
      if safeStartRec l = 0 then acc else i + safeStartRec l := by
  induction l with
  | nil => intro i acc; simp [safeStartLoop, safeStartRec]
  | cons m rest ih =>
    intro i acc
    cases m with
    | system c => simp [safeStartLoop, safeStartRec]
    | human c => simp [safeStartLoop, safeStartRec]
    | toolMsg c =>
      simp only [safeStartLoop, safeStartRec, ih]
      rcases h : safeStartRec rest with _ | n <;> simp [h] <;> omega
    | ai c tcs =>
      by_cases he : tcs.isEmpty
      · simp [safeStartLoop, safeStartRec, he]
      · by_cases hr : hasResponse rest
        · simp only [safeStartLoop, safeStartRec, he, hr, if_false, if_true, ih]
          rcases h : safeStartRec rest with _ | n <;> simp [h] <;> omega
        · simp only [safeStartLoop, safeStartRec, he, hr, if_false, ih]
          rcases h : safeStartRec rest with _ | n <;> simp [h] <;> omega

theorem safeStart_eq_rec (l : List Msg) : safeStart l = safeStartRec l := by
  unfold safeStart
  rw [safeStartLoop_eq]
  rcases h : safeStartRec l with _ | n <;> simp [h]

/-- The trimmed window tail never begins with a `ToolMessage`. -/
theorem noToolHead_drop_safeStartRec (l : List Msg) :
    noToolHead (l.drop (safeStartRec l)) = true := by
  induction l with
  | nil => simp [safeStartRec, noToolHead]
  | cons m rest ih =>
    cases m with
    | system c => simpa [safeStartRec, noToolHead] using rfl
    | human c => simp [safeStartRec, noToolHead]
    | toolMsg c => simpa [safeStartRec] using ih
    | ai c tcs =>
      by_cases he : tcs.isEmpty
      · simp [safeStartRec, he, noToolHead]
      · by_cases hr : hasResponse rest
        · rcases h : safeStartRec rest with _ | n
          · simp [safeStartRec, he, hr, h, noToolHead]
          · have := ih
            rw [h] at this
            simpa [safeStartRec, he, hr, h] using this
        · have := ih
          simpa [safeStartRec, he, hr] using ih

/-- Normal-mode well-formedness entails tolerant-mode well-formedness. -/
theorem wfM_norm_imp_inTools (l : List Msg) :
    wfM WfMode.norm l = true → wfM WfMode.inTools l = true := by
  cases l with
  | nil => simp [wfM]
  | cons m rest =>
    cases m with
    | system c => simp [wfM]
    | human c => simp [wfM]
    | toolMsg c => simp [wfM]
    | ai c tcs => simp [wfM]

/-- Tolerant-mode well-formedness is preserved by dropping a prefix. -/
theorem wfM_inTools_drop (k : Nat) (l : List Msg) :
    wfM WfMode.inTools l = true → wfM WfMode.inTools (l.drop k) = true := by
  induction k generalizing l with
  | zero => simp
  | succ k ih =>
    cases l with
    | nil => simp [wfM]
    | cons m rest =>
      intro h
      rw [List.drop_succ_cons]
      apply ih
      cases m with
      | system c => exact wfM_norm_imp_inTools rest (by simpa [wfM] using h)
      | human c => exact wfM_norm_imp_inTools rest (by simpa [wfM] using h)
      | toolMsg c => simpa [wfM] using h
      | ai c tcs =>
        by_cases he : tcs.isEmpty
        · exact wfM_norm_imp_inTools rest (by simpa [wfM, he] using h)
        · simp only [wfM, he, if_false] at h
          cases rest with
          | nil => simp [wfM] at h
          | cons m2 rest2 =>
            cases m2 with
            | toolMsg c2 => simpa [wfM] using h
            | system c2 => simp [wfM] at h
            | human c2 => simp [wfM] at h
            | ai c2 tcs2 => simp [wfM] at h

/-- Core invariant-preservation lemma: starting from any point that is
well-formed up to leading tool results, the `safe_start` adjustment
produces a well-formed remainder. -/
theorem wfB_drop_safeStartRec (l : List Msg) :
    wfM WfMode.inTools l = true → wfB (l.drop (safeStartRec l)) = true := by
  induction l with
  | nil => intro h; simp [safeStartRec, wfB, wfM]
  | cons m rest ih =>
    intro h
    cases m with
    | system c =>
      simpa [safeStartRec, wfB, wfM] using (by simpa [wfM] using h)
    | human c =>
      simpa [safeStartRec, wfB, wfM] using (by simpa [wfM] using h)
    | toolMsg c =>
      have h' : wfM WfMode.inTools rest = true := by simpa [wfM] using h
      simpa [safeStartRec] using ih h'
    | ai c tcs =>
      by_cases he : tcs.isEmpty
      · have h' : wfM WfMode.norm rest = true := by simpa [wfM, he] using h
        simpa [safeStartRec, he, wfB, wfM] using h'
      · have h' : wfM WfMode.needTool rest = true := by simpa [wfM, he] using h
        cases rest with
        | nil => simp [wfM] at h'
        | cons m2 rest2 =>
          cases m2 with
          | system c2 => simp [wfM] at h'
          | human c2 => simp [wfM] at h'
          | ai c2 tcs2 => simp [wfM] at h'
          | toolMsg c2 =>
            have h2 : wfM WfMode.inTools rest2 = true := by simpa [wfM] using h'
            have hin : wfM WfMode.inTools (Msg.toolMsg c2 :: rest2) = true := by
              simpa [wfM] using h2
            have hs : safeStartRec (Msg.ai c tcs :: Msg.toolMsg c2 :: rest2) =
                safeStartRec rest2 + 2 := by
              simp [safeStartRec, he, hasResponse]
            rw [hs]
            have hd : (Msg.ai c tcs :: Msg.toolMsg c2 :: rest2).drop (safeStartRec rest2 + 2) =
                rest2.drop (safeStartRec rest2) := by
              simp [List.drop_succ_cons]
            rw [hd]
            have hih := ih hin
            have h3 : safeStartRec (Msg.toolMsg c2 :: rest2) = safeStartRec rest2 + 1 := by
              simp [safeStartRec]
            rw [h3] at hih
            simpa using hih

/-! ### Window shape and invariant preservation -/

theorem replaceFirstSystem_none (p : String) (l : List Msg) :
    noSystem l = true → replaceFirstSystem p l = none := by
  induction l with
  | nil => intro _; rfl
  | cons m rest ih =>
    intro hl
    rw [noSystem, List.all_cons, Bool.and_eq_true] at hl
    obtain ⟨hm0, hrest0⟩ := hl
    have hm : isSystemB m = false := by simpa using hm0
    have hrest : noSystem rest = true := hrest0
    cases m with
    | system c => simp [isSystemB] at hm
    | human c => simp [replaceFirstSystem, ih hrest]
    | ai c tcs => simp [replaceFirstSystem, ih hrest]
    | toolMsg c => simp [replaceFirstSystem, ih hrest]

theorem noSystem_drop (l : List Msg) (k : Nat) :
    noSystem l = true → noSystem (l.drop k) = true := by
  intro hl
  have h := List.all_eq_true.mp hl
  exact List.all_eq_true.mpr fun m hm => h m (List.mem_of_mem_drop hm)

theorem countP_system_zero (l : List Msg) (hl : noSystem l = true) :
    l.countP (fun m => isSystemB m) = 0 := by
  refine List.countP_eq_zero.mpr fun m hm => ?_
  have := List.all_eq_true.mp hl m hm
  simpa using this

theorem wfM_norm_noToolHead (l : List Msg) :
    wfM WfMode.norm l = true → noToolHead l = true := by
  cases l with
  | nil => intro _; rfl
  | cons m rest =>
    cases m with
    | system c => intro _; rfl
    | human c => intro _; rfl
    | ai c tcs => intro _; rfl
    | toolMsg c => intro h; simp [wfM] at h

theorem prepSystem_shape (uid : String) (h : List Msg)
    (hs : noSystem (h.drop 1) = true) :
    ∃ t, prepSystem uid h = Msg.system (currentSystemPrompt uid) :: t ∧
      noSystem t = true ∧ (wfB h = true → wfM WfMode.norm t = true) := by
  cases h with
  | nil =>
    refine ⟨[], ?_, rfl, fun _ => rfl⟩
    simp [prepSystem, replaceFirstSystem]
  | cons m t0 =>
    have hst : noSystem t0 = true := by simpa using hs
    cases m with
    | system c =>
      refine ⟨t0, ?_, hst, fun hw => ?_⟩
      · simp [prepSystem, replaceFirstSystem]
      · simpa [wfB, wfM] using hw
    | human c =>
      have hns : noSystem (Msg.human c :: t0) = true := by
        simp [noSystem, isSystemB]
        simpa [noSystem] using hst
      refine ⟨Msg.human c :: t0, ?_, hns, fun hw => hw⟩
      simp [prepSystem, replaceFirstSystem_none _ _ hns]
    | ai c tcs =>
      have hns : noSystem (Msg.ai c tcs :: t0) = true := by
        simp [noSystem, isSystemB]
        simpa [noSystem] using hst
      refine ⟨Msg.ai c tcs :: t0, ?_, hns, fun hw => hw⟩
      simp [prepSystem, replaceFirstSystem_none _ _ hns]
    | toolMsg c =>
      have hns : noSystem (Msg.toolMsg c :: t0) = true := by
        simp [noSystem, isSystemB]
        simpa [noSystem] using hst
      refine ⟨Msg.toolMsg c :: t0, ?_, hns, fun hw => hw⟩
      simp [prepSystem, replaceFirstSystem_none _ _ hns]

/-- Shape of the delivered window: for a history whose only system message
(if any) sits at the head, the window is the fresh system message followed
by a system-free tail of at most `MAX_HISTORY_MESSAGES` messages, and for
well-formed input histories that tail is itself well-formed and does not
begin with a tool result. -/
theorem agentWindow_shape (uid : String) (h : List Msg)
    (hs : noSystem (h.drop 1) = true) :
    ∃ t, agentWindow uid h = Msg.system (currentSystemPrompt uid) :: t ∧
      noSystem t = true ∧ t.length ≤ MAX_HISTORY_MESSAGES ∧
      (wfB h = true → wfM WfMode.norm t = true ∧ noToolHead t = true) := by
  obtain ⟨t0, hp, hns0, hwf0⟩ := prepSystem_shape uid h hs
  have hM : MAX_HISTORY_MESSAGES = 6 := rfl
  by_cases hlen : (Msg.system (currentSystemPrompt uid) :: t0).length > MAX_HISTORY_MESSAGES + 1
  · -- truncation branch
    have hlen6 : t0.length > 6 := by
      simp only [List.length_cons, hM] at hlen
      omega
    have hrecent : List.drop ((Msg.system (currentSystemPrompt uid) :: t0).length -
        MAX_HISTORY_MESSAGES) (Msg.system (currentSystemPrompt uid) :: t0)
        = List.drop (t0.length - 6) t0 := by
      have h1 : (Msg.system (currentSystemPrompt uid) :: t0).length - MAX_HISTORY_MESSAGES
          = (t0.length - 6) + 1 := by
        simp only [List.length_cons, hM]
        omega
      rw [h1, List.drop_succ_cons]
    have hwin : agentWindow uid h = Msg.system (currentSystemPrompt uid) ::
        List.drop (safeStartRec (List.drop (t0.length - 6) t0))
          (List.drop (t0.length - 6) t0) := by
      unfold agentWindow
      rw [hp]
      dsimp only
      rw [if_pos hlen, hrecent, safeStart_eq_rec]
      rfl
    set recent := List.drop (t0.length - 6) t0 with hrec
    refine ⟨recent.drop (safeStartRec recent), hwin, ?_, ?_, fun hw => ?_⟩
    · exact noSystem_drop _ _ (noSystem_drop _ _ hns0)
    · rw [hM, List.length_drop, hrec, List.length_drop]
      omega
    · constructor
      · refine wfB_drop_safeStartRec recent ?_
        exact wfM_inTools_drop _ _ (wfM_norm_imp_inTools _ (hwf0 hw))
      · exact noToolHead_drop_safeStartRec recent
  · -- no truncation
    have hwin : agentWindow uid h = Msg.system (currentSystemPrompt uid) :: t0 := by
      unfold agentWindow
      rw [hp]
      dsimp only
      rw [if_neg hlen]
    refine ⟨t0, hwin, hns0, ?_, fun hw => ⟨hwf0 hw, wfM_norm_noToolHead _ (hwf0 hw)⟩⟩
    simp only [List.length_cons, Nat.not_lt, hM] at hlen
    rw [hM]
    omega

/-! ### Claims C1, C9, C10: the context-window invariants -/

/-- C1 counterexample: the claim quantifies over *every* message history,
but on the history `[H,H,AI(tool_calls),H,H,H,H]` the delivered window
keeps a tool-calling agent message while containing no tool result at all
— the scan only repairs orphans at the very start of the window, not in
its interior. -/
theorem claim_C1_counterexample :
    ((agentWindow "u1" [Msg.human "a", Msg.human "b", Msg.ai "c" [⟨"t", []⟩],
        Msg.human "d", Msg.human "e", Msg.human "f", Msg.human "g"]).any isToolCallAI = true)
    ∧ ((agentWindow "u1" [Msg.human "a", Msg.human "b", Msg.ai "c" [⟨"t", []⟩],
        Msg.human "d", Msg.human "e", Msg.human "f", Msg.human "g"]).any isToolMsgB = false) := by
  decide

/-- C1 (amended): for every *well-formed* message history (every
tool-calling agent message is immediately followed by its tool-result
messages, tool results occur nowhere else) whose system message, if any,
sits at the head, every window produced by the trimming step is itself
well-formed — every kept ToolInvocation has its ToolResult kept and every
kept ToolResult has its ToolInvocation kept — and the window never starts
with an orphaned ToolResult. -/
theorem claim_C1_window_invariant (uid : String) (h : List Msg)
    (hw : wfB h = true) (hsys : noSystem (h.drop 1) = true) :
    wfB (agentWindow uid h) = true ∧
    noToolHead ((agentWindow uid h).drop 1) = true := by
  obtain ⟨t, hwin, hns, hlen, hwf⟩ := agentWindow_shape uid h hsys
  obtain ⟨h1, h2⟩ := hwf hw
  rw [hwin]
  constructor
  · simpa [wfB, wfM] using h1
  · simpa using h2

theorem claim_C1_window_invariant_witness :
    wfB [Msg.human "a", Msg.ai "b" [⟨"t", []⟩], Msg.toolMsg "r"] = true ∧
    noSystem (List.drop 1 [Msg.human "a", Msg.ai "b" [⟨"t", []⟩], Msg.toolMsg "r"]) = true ∧
    (wfB (agentWindow "u1" [Msg.human "a", Msg.ai "b" [⟨"t", []⟩], Msg.toolMsg "r"]) = true ∧
      noToolHead ((agentWindow "u1"
        [Msg.human "a", Msg.ai "b" [⟨"t", []⟩], Msg.toolMsg "r"]).drop 1) = true) :=
  ⟨by decide, by decide, claim_C1_window_invariant "u1" _ (by decide) (by decide)⟩

/-- C9 counterexample: a sequence of length `8 > MAX_HISTORY_MESSAGES`
whose rebuilt window violates the pairing invariant (it keeps a
tool-calling agent message and no tool result), refuting the claim's
unrestricted invariant conjunct. -/
theorem claim_C9_counterexample :
    ([Msg.human "p", Msg.human "q", Msg.human "r", Msg.ai "s" [⟨"t2", []⟩],
        Msg.human "u", Msg.human "v", Msg.human "w", Msg.human "x"].length
        > MAX_HISTORY_MESSAGES)
    ∧ ((agentWindow "u2" [Msg.human "p", Msg.human "q", Msg.human "r",
        Msg.ai "s" [⟨"t2", []⟩], Msg.human "u", Msg.human "v", Msg.human "w",
        Msg.human "x"]).any isToolCallAI = true)
    ∧ ((agentWindow "u2" [Msg.human "p", Msg.human "q", Msg.human "r",
        Msg.ai "s" [⟨"t2", []⟩], Msg.human "u", Msg.human "v", Msg.human "w",
        Msg.human "x"]).any isToolMsgB = false) := by
  refine ⟨by decide, by decide, by decide⟩

/-- The delivered window never exceeds `MAX_HISTORY_MESSAGES + 1`
messages, for every input history whatsoever. -/
theorem agentWindow_length_le (uid : String) (h : List Msg) :
    (agentWindow uid h).length ≤ MAX_HISTORY_MESSAGES + 1 := by
  unfold agentWindow
  dsimp only
  split
  · simp only [List.length_cons, List.length_drop]
    omega
  · omega

/-- C9 (amended): for every message sequence longer than
`MAX_HISTORY_MESSAGES` the rebuilt window has at most
`MAX_HISTORY_MESSAGES + 1` messages — with no further assumptions; and
when the sequence is moreover well-formed with its system message (if
any) at the head, the window contains exactly one system message and
satisfies the tool-pairing invariant. -/
theorem claim_C9_window_size (uid : String) (h : List Msg)
    (hN : h.length > MAX_HISTORY_MESSAGES) :
    (agentWindow uid h).length ≤ MAX_HISTORY_MESSAGES + 1 ∧
    (wfB h = true → noSystem (h.drop 1) = true →
      (agentWindow uid h).countP (fun m => isSystemB m) = 1 ∧
      wfB (agentWindow uid h) = true) := by
  refine ⟨agentWindow_length_le uid h, fun hw hsys => ?_⟩
  obtain ⟨t, hwin, hns, hlen, hwf⟩ := agentWindow_shape uid h hsys
  rw [hwin]
  constructor
  · have h0 : t.countP (fun m => isSystemB m) = 0 := countP_system_zero t hns
    rw [List.countP_cons, h0]
    simp [isSystemB]
  · simpa [wfB, wfM] using (hwf hw).1

theorem claim_C9_window_size_witness :
    ([Msg.human "m1", Msg.human "m2", Msg.human "m3", Msg.human "m4",
        Msg.human "m5", Msg.human "m6", Msg.human "m7"].length > MAX_HISTORY_MESSAGES) ∧
    ((agentWindow "u3" [Msg.human "m1", Msg.human "m2", Msg.human "m3", Msg.human "m4",
        Msg.human "m5", Msg.human "m6", Msg.human "m7"]).length ≤ MAX_HISTORY_MESSAGES + 1 ∧
      (wfB [Msg.human "m1", Msg.human "m2", Msg.human "m3", Msg.human "m4",
          Msg.human "m5", Msg.human "m6", Msg.human "m7"] = true →
        noSystem (List.drop 1 [Msg.human "m1", Msg.human "m2", Msg.human "m3", Msg.human "m4",
          Msg.human "m5", Msg.human "m6", Msg.human "m7"]) = true →
        (agentWindow "u3" [Msg.human "m1", Msg.human "m2", Msg.human "m3", Msg.human "m4",
          Msg.human "m5", Msg.human "m6", Msg.human "m7"]).countP (fun m => isSystemB m) = 1 ∧
        wfB (agentWindow "u3" [Msg.human "m1", Msg.human "m2", Msg.human "m3", Msg.human "m4",
          Msg.human "m5", Msg.human "m6", Msg.human "m7"]) = true)) :=
  ⟨by decide, claim_C9_window_size "u3" _ (by decide)⟩

/-- C10: on the history `[H, AI(tool_calls), ToolMsg, H, H, H, H]` the
trimming step drops the complete, correctly paired invocation/result group
sitting at the start of the most-recent-`MAX_HISTORY` slice: the scan does
not stop at a paired tool-calling agent message and then skips past the
tool results following it, so the delivered window has strictly fewer
messages than allowed, even though keeping the pair would have been
well-formed and within the size budget. -/
theorem claim_C10_dropped_pair :
    agentWindow "u1" [Msg.human "q", Msg.ai "x" [⟨"t", []⟩], Msg.toolMsg "r",
        Msg.human "a", Msg.human "b", Msg.human "c", Msg.human "d"] =
      [Msg.system (currentSystemPrompt "u1"), Msg.human "a", Msg.human "b",
        Msg.human "c", Msg.human "d"] ∧
    (agentWindow "u1" [Msg.human "q", Msg.ai "x" [⟨"t", []⟩], Msg.toolMsg "r",
        Msg.human "a", Msg.human "b", Msg.human "c", Msg.human "d"]).length
      < MAX_HISTORY_MESSAGES + 1 ∧
    wfB [Msg.system (currentSystemPrompt "u1"), Msg.ai "x" [⟨"t", []⟩], Msg.toolMsg "r",
        Msg.human "a", Msg.human "b", Msg.human "c", Msg.human "d"] = true ∧
    [Msg.system (currentSystemPrompt "u1"), Msg.ai "x" [⟨"t", []⟩], Msg.toolMsg "r",
        Msg.human "a", Msg.human "b", Msg.human "c", Msg.human "d"].length
      = MAX_HISTORY_MESSAGES + 1 := by
  refine ⟨rfl, by decide, by decide, by decide⟩

/-! ### Model/credential rotation manager (source lines 834-904) -/

/-- `MODELS_TO_TRY` — the ordered candidate list (source lines 834-845). -/
def MODELS_TO_TRY : List String :=
  ["gemini-2.5-flash", "gemini-2.5-flash-lite", "gemini-2.0-flash",
   "gemma-3-27b-it", "gemma-3-12b-it", "gemma-3-4b-it", "gemma-3-2b-it"]

/-- The process-wide rotation globals `_current_model_index`,
`_current_key_index` and `_failed_models` (source lines 848-850),
threaded explicitly. -/
structure RotationState where
  modelIndex : Nat
  keyIndex : Nat
  failedModels : List String
deriving DecidableEq, Repr

/-- `_failed_models.add(m)` — membership-idempotent insertion. -/
def addFailed (m : String) (l : List String) : List String :=
  if m ∈ l then l else m :: l

/-- The scanning `while` loop of `get_next_model_config` (source lines
864-871): up to `len(MODELS_TO_TRY)` probes from `_current_model_index`
(wrapping), returning the first model not in `_failed_models` together
with the cursor position at which it was found. -/
def findModelLoop : Nat → Nat → List String → Option (String × Nat)
  | 0, _, _ => none
  | n + 1, idx, failed =>
    let model := MODELS_TO_TRY.getD (idx % MODELS_TO_TRY.length) ""
    if model ∈ failed then findModelLoop n (idx + 1) failed
    else some (model, idx)

/-- `get_next_model_config` (source lines 853-882).  Raises when no API
keys are configured; otherwise returns the `(model, api_key)` pair and the
successor rotation state.  On exhaustion of all candidates it clears
`_failed_models`, advances the key cursor (wrapping to zero, which the
source also logs as full exhaustion) and returns the first model. -/
def get_next_model_config (apiKeys : List String) (s : RotationState) :
    Except String ((String × String) × RotationState) :=
  if apiKeys.isEmpty then Except.error "No Gemini API keys configured!"
  else
    match findModelLoop MODELS_TO_TRY.length s.modelIndex s.failedModels with
    | some (model, idx) =>
      Except.ok ((model, apiKeys.getD (s.keyIndex % apiKeys.length) ""),
        { s with modelIndex := idx })
    | none =>
      let k1 := s.keyIndex + 1
      let k2 := if k1 ≥ apiKeys.length then 0 else k1
      Except.ok ((MODELS_TO_TRY.getD 0 "", apiKeys.getD (k2 % apiKeys.length) ""),
        { modelIndex := s.modelIndex + MODELS_TO_TRY.length, keyIndex := k2,
          failedModels := [] })

/-- `rotate_to_next_model` (source lines 885-897): mark the failed model,
advance the model cursor, and re-resolve the active configuration. -/
def rotate_to_next_model (apiKeys : List String) (failedModel : Option String)
    (s : RotationState) : Except String ((String × String) × RotationState) :=
  let s1 := match failedModel with
    | some m => { s with failedModels := addFailed m s.failedModels }
    | none => s
  get_next_model_config apiKeys { s1 with modelIndex := s1.modelIndex + 1 }

/-- All candidate models are currently marked failed. -/
def allFailed (s : RotationState) : Bool :=
  MODELS_TO_TRY.all (fun m => decide (m ∈ s.failedModels))

-- Sanity checks of the rotation embedding.
example :
    get_next_model_config ["k1"] ⟨0, 0, []⟩ =
      Except.ok (("gemini-2.5-flash", "k1"), ⟨0, 0, []⟩) := rfl
example :
    get_next_model_config ["k1"] ⟨0, 0, ["gemini-2.5-flash"]⟩ =
      Except.ok (("gemini-2.5-flash-lite", "k1"), ⟨1, 0, ["gemini-2.5-flash"]⟩) := rfl
example :
    get_next_model_config ["k1", "k2"] ⟨0, 0, MODELS_TO_TRY⟩ =
      Except.ok (("gemini-2.5-flash", "k2"), ⟨7, 1, []⟩) := rfl

/-! ### Claim C2: correctness of `get_next_model_config` -/

theorem getD_mem_of_lt {α : Type} (l : List α) (i : Nat) (d : α) (h : i < l.length) :
    l.getD i d ∈ l := by
  induction l generalizing i with
  | nil => simp at h
  | cons a t ih =>
    cases i with
    | zero => simp [List.getD]
    | succ n =>
      simp only [List.getD_cons_succ]
      exact List.mem_cons_of_mem a (ih n (by simpa using h))

theorem findModelLoop_none (failed : List String)
    (hall : ∀ m ∈ MODELS_TO_TRY, m ∈ failed) :
    ∀ n idx, findModelLoop n idx failed = none := by
  intro n
  induction n with
  | zero => intro idx; rfl
  | succ n ih =>
    intro idx
    have hmem : MODELS_TO_TRY.getD (idx % MODELS_TO_TRY.length) "" ∈ MODELS_TO_TRY :=
      getD_mem_of_lt _ _ _ (Nat.mod_lt _ (by decide))
    simp only [findModelLoop]
    rw [if_pos (hall _ hmem)]
    exact ih (idx + 1)

theorem findModelLoop_some (n : Nat) (failed : List String) :
    ∀ idx, (∃ t, t < n ∧
        MODELS_TO_TRY.getD ((idx + t) % MODELS_TO_TRY.length) "" ∉ failed) →
      ∃ m i, findModelLoop n idx failed = some (m, i) ∧ m ∉ failed ∧
        m = MODELS_TO_TRY.getD (i % MODELS_TO_TRY.length) "" := by
  induction n with
  | zero =>
    intro idx hex
    obtain ⟨t, ht, _⟩ := hex
    omega
  | succ n ih =>
    intro idx hex
    by_cases hm : MODELS_TO_TRY.getD (idx % MODELS_TO_TRY.length) "" ∈ failed
    · obtain ⟨t, ht, hnot⟩ := hex
      have ht0 : t ≠ 0 := by
        intro h0
        subst h0
        simp only [Nat.add_zero] at hnot
        exact hnot hm
      obtain ⟨t', rfl⟩ : ∃ t', t = t' + 1 := ⟨t - 1, by omega⟩
      have harith : idx + 1 + t' = idx + (t' + 1) := by omega
      obtain ⟨m, i, hfind, hmem, hidx⟩ := ih (idx + 1)
        ⟨t', by omega, by rw [harith]; exact hnot⟩
      refine ⟨m, i, ?_, hmem, hidx⟩
      simp only [findModelLoop]
      rw [if_pos hm]
      exact hfind
    · refine ⟨_, idx, ?_, hm, rfl⟩
      simp only [findModelLoop]
      rw [if_neg hm]

theorem exists_probe_of_not_allFailed (s : RotationState) (idx : Nat)
    (h : allFailed s = false) :
    ∃ t, t < MODELS_TO_TRY.length ∧
      MODELS_TO_TRY.getD ((idx + t) % MODELS_TO_TRY.length) "" ∉ s.failedModels := by
  have hj : ∃ j, j < MODELS_TO_TRY.length ∧
      MODELS_TO_TRY.getD j "" ∉ s.failedModels := by
    by_contra hc
    push_neg at hc
    have hall : allFailed s = true := by
      unfold allFailed
      refine List.all_eq_true.mpr fun m hm => ?_
      obtain ⟨i, hi, hEq⟩ := List.getElem_of_mem hm
      have hg : MODELS_TO_TRY.getD i "" = m := by
        rw [List.getD_eq_getElem _ _ hi]
        exact hEq
      have := hc i hi
      rw [hg] at this
      simpa using this
    rw [hall] at h
    exact Bool.true_eq_false.mp h
  obtain ⟨j, hjlt, hnot⟩ := hj
  have hlen : MODELS_TO_TRY.length = 7 := by decide
  refine ⟨(j + MODELS_TO_TRY.length - idx % MODELS_TO_TRY.length) % MODELS_TO_TRY.length,
    Nat.mod_lt _ (by decide), ?_⟩
  have harith : (idx + (j + MODELS_TO_TRY.length - idx % MODELS_TO_TRY.length) %
      MODELS_TO_TRY.length) % MODELS_TO_TRY.length = j := by
    rw [hlen]
    rw [hlen] at hjlt
    omega
  rw [harith]
  exact hnot

/-- C2: `get_next_model_config` returns a model outside `failed_models`
whenever some candidate remains; when every candidate is marked failed it
clears the failed set, advances the credential cursor (wrapping to zero),
and returns the first candidate model paired with the newly selected
credential. -/
theorem claim_C2_get_active (apiKeys : List String) (s : RotationState)
    (hk : apiKeys ≠ []) :
    ∃ m k s2, get_next_model_config apiKeys s = Except.ok ((m, k), s2) ∧
      (allFailed s = false →
        m ∉ s.failedModels ∧ s2.failedModels = s.failedModels ∧
        s2.keyIndex = s.keyIndex ∧
        k = apiKeys.getD (s.keyIndex % apiKeys.length) "") ∧
      (allFailed s = true →
        s2.failedModels = [] ∧ m = MODELS_TO_TRY.getD 0 "" ∧
        s2.keyIndex = (if s.keyIndex + 1 ≥ apiKeys.length then 0 else s.keyIndex + 1) ∧
        k = apiKeys.getD (s2.keyIndex % apiKeys.length) "") := by
  have hne : apiKeys.isEmpty = false := by
    cases apiKeys with
    | nil => exact absurd rfl hk
    | cons a t => rfl
  rcases hf : findModelLoop MODELS_TO_TRY.length s.modelIndex s.failedModels with _ | p
  · -- exhaustion branch
    refine ⟨MODELS_TO_TRY.getD 0 "",
      apiKeys.getD ((if s.keyIndex + 1 ≥ apiKeys.length then 0 else s.keyIndex + 1) %
        apiKeys.length) "",
      ⟨s.modelIndex + MODELS_TO_TRY.length,
        (if s.keyIndex + 1 ≥ apiKeys.length then 0 else s.keyIndex + 1), []⟩, ?_, ?_, ?_⟩
    · unfold get_next_model_config
      rw [hne]
      simp only [Bool.false_eq_true, if_false, hf]
    · intro hnall
      obtain ⟨t, ht, hnot⟩ := exists_probe_of_not_allFailed s s.modelIndex hnall
      obtain ⟨m, i, hsome, _, _⟩ := findModelLoop_some MODELS_TO_TRY.length s.failedModels s.modelIndex ⟨t, ht, hnot⟩
      rw [hf] at hsome
      exact absurd hsome (by simp)
    · intro _
      exact ⟨rfl, rfl, rfl, rfl⟩
  · -- found branch
    obtain ⟨m, i⟩ := p
    have hspec := findModelLoop_some MODELS_TO_TRY.length s.failedModels s.modelIndex
    refine ⟨m, apiKeys.getD (s.keyIndex % apiKeys.length) "",
      { s with modelIndex := i }, ?_, ?_, ?_⟩
    · unfold get_next_model_config
      rw [hne]
      simp only [Bool.false_eq_true, if_false, hf]
    · intro hnall
      obtain ⟨t, ht, hnot⟩ := exists_probe_of_not_allFailed s s.modelIndex hnall
      obtain ⟨m', i', hsome, hmem, _⟩ := hspec ⟨t, ht, hnot⟩
      rw [hf] at hsome
      obtain ⟨hm, hi⟩ : m' = m ∧ i' = i := by
        constructor <;> (injection hsome with h1; injection h1 with h2 h3)
        · exact h2.symm
        · exact h3.symm
      subst hm
      exact ⟨hmem, rfl, rfl, rfl⟩
    · intro hall
      have hallmem : ∀ mo ∈ MODELS_TO_TRY, mo ∈ s.failedModels := by
        intro mo hmo
        have := List.all_eq_true.mp hall mo hmo
        simpa using this
      have := findModelLoop_none s.failedModels hallmem MODELS_TO_TRY.length s.modelIndex
      rw [hf] at this
      exact absurd this (by simp)

theorem claim_C2_get_active_witness :
    (["k1", "k2"] : List String) ≠ [] ∧
    (∃ m k s2, get_next_model_config ["k1", "k2"] ⟨0, 0, ["gemini-2.5-flash"]⟩ =
        Except.ok ((m, k), s2) ∧
      (allFailed ⟨0, 0, ["gemini-2.5-flash"]⟩ = false →
        m ∉ (⟨0, 0, ["gemini-2.5-flash"]⟩ : RotationState).failedModels ∧
        s2.failedModels = (⟨0, 0, ["gemini-2.5-flash"]⟩ : RotationState).failedModels ∧
        s2.keyIndex = (⟨0, 0, ["gemini-2.5-flash"]⟩ : RotationState).keyIndex ∧
        k = ["k1", "k2"].getD (0 % (["k1", "k2"] : List String).length) "") ∧
      (allFailed ⟨0, 0, ["gemini-2.5-flash"]⟩ = true →
        s2.failedModels = [] ∧ m = MODELS_TO_TRY.getD 0 "" ∧
        s2.keyIndex = (if 0 + 1 ≥ (["k1", "k2"] : List String).length then 0 else 0 + 1) ∧
        k = ["k1", "k2"].getD (s2.keyIndex % (["k1", "k2"] : List String).length) "")) :=
  ⟨by decide, claim_C2_get_active ["k1", "k2"] ⟨0, 0, ["gemini-2.5-flash"]⟩ (by decide)⟩

/-! ### Agent graph (source lines 911-1048) and supervisor (lines 1073-1220) -/

/-- A ToolAction audit record (`actions_taken` entries, source lines
1013-1018): tool name plus arguments. -/
structure ToolAction where
  tool : String
  args : List (String × String)
deriving DecidableEq, Repr

/-- The LangGraph state carried through the agent graph (`AgentState`,
source lines 44-51; the clarification fields are never read and are
omitted). -/
structure GraphState where
  messages : List Msg
  user_id : String
  actions_taken : List ToolAction
deriving DecidableEq, Repr

/-- One full run of the compiled agent graph (source lines 1026-1048):
`agent_node` prepares the window and invokes the model (`llm` oracle);
`should_continue` routes to the tool node iff the response carries tool
calls; `tool_node` executes every requested call (via the `toolExec`
oracle), appends one `ToolMessage` per call and records one `ToolAction`
per call, then loops back.  The source graph has no iteration cap, so
termination is modelled by explicit fuel (`none` = fuel exhausted). -/
def runGraph (llm : List Msg → Msg) (toolExec : ToolCall → String) :
    Nat → GraphState → Option GraphState
  | 0, _ => none
  | fuel + 1, st =>
    let response := llm (agentWindow st.user_id st.messages)
    let st1 : GraphState := { st with messages := st.messages ++ [response] }
    match response with
    | Msg.ai _ tcs =>
      if tcs.isEmpty then some st1
      else
        runGraph llm toolExec fuel
          { st1 with
            messages := st1.messages ++ tcs.map (fun tc => Msg.toolMsg (toolExec tc)),
            actions_taken := st1.actions_taken ++
              tcs.map (fun tc => ToolAction.mk tc.name tc.args) }
    | _ => some st1

/-- Is the message an `AIMessage` with truthy (non-empty) content?
(`isinstance(msg, AIMessage) and msg.content`, source line 1182). -/
def isTextualAI : Msg → Bool
  | Msg.ai c _ => !(c = "")
  | _ => false

/-- Response extraction of `agentic_chat` (source lines 1180-1184): the
content of the last `AIMessage` with non-empty content, else `""`. -/
def extractRaw (msgs : List Msg) : String :=
  match msgs.reverse.find? isTextualAI with
  | some (Msg.ai c _) => c
  | _ => ""

/-- `ai_response or "Done! ✅"` (source line 1193). -/
def finalResponse (msgs : List Msg) : String :=
  let r := extractRaw msgs
  if r = "" then "Done! ✅" else r

/-- `is_retryable_error` markers (source lines 1076-1080). -/
def retryableMarkers : List String :=
  ["quota", "rate_limit", "resource_exhausted",
   "429", "too many requests", "exceeded",
   "not_found", "404", "not found"]

/-- Python's `pat in s` substring test, on character lists. -/
def infixOfB (pat : List Char) : List Char → Bool
  | [] => pat.isEmpty
  | a :: rest => pat.isPrefixOf (a :: rest) || infixOfB pat rest

/-- `is_retryable_error` (source lines 1073-1080): the lowercased error
text contains one of the quota / rate-limit / not-found markers
(`str.lower()` modelled as ASCII per-character lowering). -/
def is_retryable_error (e : String) : Bool :=
  retryableMarkers.any (fun m => infixOfB m.data (e.data.map Char.toLower))

-- Sanity checks against the source's intent.
example : is_retryable_error "429 Too Many Requests" = true := by decide
example : is_retryable_error "Quota exceeded for model" = true := by decide
example : is_retryable_error "model NOT_FOUND" = true := by decide
example : is_retryable_error "invalid api key" = false := by decide

/-- `MAX_ROTATION_RETRIES = 7` (source line 1087). -/
def MAX_ROTATION_RETRIES : Nat := 7

/-- The result dictionary returned by `agentic_chat`.  The success path
(source lines 1192-1197) carries `response`, `actions`,
`conversation_id` and `model_used`; the failure path (source lines
1216-1220) carries `response`, empty `actions` and `error` only —
absent keys are modelled as `none`. -/
structure ChatResult where
  response : String
  actions : List ToolAction
  conversation_id : Option String
  model_used : Option String
  error : Option String
deriving DecidableEq, Repr

/-- The failure response string (source line 1217). -/
def failureResponse (e : String) : String :=
  "❌ Alamak, semua model dah exceed quota. Cuba lagi dalam beberapa minit! Error: " ++ e

/-- The failure dictionary built after the retry loop (source lines
1216-1220): no `conversation_id` and no `model_used` key. -/
def failureResult (lastErr : Option String) : ChatResult :=
  { response := failureResponse (lastErr.getD "None"),
    actions := [],
    conversation_id := none,
    model_used := none,
    error := some (lastErr.getD "None") }

/-- Outcome of one `agent.invoke(initial_state, config)` call: either the
final graph state's messages and actions, or a raised exception text. -/
inductive InvokeResult where
  | ok (messages : List Msg) (actions : List ToolAction)
  | err (text : String)

/-- The retry loop of `agentic_chat` (source lines 1167-1220), with the
model backend abstracted as `invoke : attempt → bound model → outcome`.
Per iteration: `get_agent` resolves the active configuration (first
`get_next_model_config` call, binding the agent to that model), the
supervisor re-reads `current_model` (second call), runs the agent, and on
exception re-reads `current_model` again (third call) before classifying;
retryable errors with attempts remaining mark the model failed and rotate
(`rotate_to_next_model`), anything else breaks out to the failure
dictionary.  An exception escaping `get_next_model_config` inside the
`except` handler propagates out of `agentic_chat` (`Except.error`).  The
returned triple is (result dictionary, final rotation state, one log
entry per started attempt as logged at source line 1173). -/
def chatLoop (invoke : Nat → String → InvokeResult) (apiKeys : List String)
    (cid : String) :
    Nat → Nat → RotationState → Option String → List String →
    Except String (ChatResult × RotationState × List String)
  | 0, _, s, lastErr, log => Except.ok (failureResult lastErr, s, log)
  | remaining + 1, attempt, s, lastErr, log =>
    match get_next_model_config apiKeys s with
    | Except.error e => Except.error e
    | Except.ok (_, s1) =>
      match get_next_model_config apiKeys s1 with
      | Except.error e2 => Except.error e2
      | Except.ok ((m2, _), s2) =>
        match invoke attempt m2 with
        | InvokeResult.ok msgs acts =>
          Except.ok
            ({ response := finalResponse msgs, actions := acts,
               conversation_id := some cid, model_used := some m2,
               error := none }, s2, log ++ [m2])
        | InvokeResult.err e =>
          match get_next_model_config apiKeys s2 with
          | Except.error e3 => Except.error e3
          | Except.ok ((m3, _), s3) =>
            if is_retryable_error e && decide (attempt < MAX_ROTATION_RETRIES - 1) then
              match rotate_to_next_model apiKeys (some m3) s3 with
              | Except.error e4 => Except.error e4
              | Except.ok (_, s4) =>
                chatLoop invoke apiKeys cid remaining (attempt + 1) s4 (some e) (log ++ [m2])
            else Except.ok (failureResult (some e), s3, log ++ [m2])

/-- `agentic_chat` (source lines 1089-1220), supervisor part: run the
retry loop for `MAX_ROTATION_RETRIES` attempts starting from the shared
rotation state. -/
def agentic_chat (invoke : Nat → String → InvokeResult) (apiKeys : List String)
    (conversation_id : String) (s0 : RotationState) :
    Except String (ChatResult × RotationState × List String) :=
  chatLoop invoke apiKeys conversation_id MAX_ROTATION_RETRIES 0 s0 none []

/-! ### Claim C3: exactly seven attempts under persistent retryable errors -/

theorem gnmc_found (apiKeys : List String) (s : RotationState) (m : String) (i : Nat)
    (hne : apiKeys.isEmpty = false)
    (hfind : findModelLoop MODELS_TO_TRY.length s.modelIndex s.failedModels = some (m, i)) :
    get_next_model_config apiKeys s =
      Except.ok ((m, apiKeys.getD (s.keyIndex % apiKeys.length) ""),
        { s with modelIndex := i }) := by
  unfold get_next_model_config
  rw [hfind]
  simp [hne]

theorem chatLoop_succ (invoke : Nat → String → InvokeResult) (apiKeys : List String)
    (cid : String) (r attempt : Nat) (s : RotationState) (lastErr : Option String)
    (log : List String) :
    chatLoop invoke apiKeys cid (r + 1) attempt s lastErr log =
      (match get_next_model_config apiKeys s with
      | Except.error e => Except.error e
      | Except.ok (_, s1) =>
        match get_next_model_config apiKeys s1 with
        | Except.error e2 => Except.error e2
        | Except.ok ((m2, _), s2) =>
          match invoke attempt m2 with
          | InvokeResult.ok msgs acts =>
            Except.ok
              ({ response := finalResponse msgs, actions := acts,
                 conversation_id := some cid, model_used := some m2,
                 error := none }, s2, log ++ [m2])
          | InvokeResult.err e =>
            match get_next_model_config apiKeys s2 with
            | Except.error e3 => Except.error e3
            | Except.ok ((m3, _), s3) =>
              if is_retryable_error e && decide (attempt < MAX_ROTATION_RETRIES - 1) then
                match rotate_to_next_model apiKeys (some m3) s3 with
                | Except.error e4 => Except.error e4
                | Except.ok (_, s4) =>
                  chatLoop invoke apiKeys cid r (attempt + 1) s4 (some e) (log ++ [m2])
              else Except.ok (failureResult (some e), s3, log ++ [m2])) := rfl

/-- C3: starting from fresh rotation state, when every model invocation
raises a retryable error, `agentic_chat` performs exactly seven attempts
(one log entry per attempt, covering each candidate model exactly once in
order), marks a distinct model failed before each of the six retries
(final failed set = the first six candidates), and returns the failure
dictionary embedding the final error text with an empty tool-action
list. -/
theorem claim_C3_seven_attempts (invoke : Nat → String → InvokeResult)
    (apiKeys : List String) (cid : String)
    (hk : apiKeys ≠ [])
    (hb : ∀ a m, ∃ e, invoke a m = InvokeResult.err e ∧ is_retryable_error e = true) :
    ∃ e6, invoke 6 "gemma-3-2b-it" = InvokeResult.err e6 ∧
      agentic_chat invoke apiKeys cid ⟨0, 0, []⟩ =
        Except.ok (failureResult (some e6),
          ⟨6, 0, ["gemma-3-4b-it", "gemma-3-12b-it", "gemma-3-27b-it",
                  "gemini-2.0-flash", "gemini-2.5-flash-lite", "gemini-2.5-flash"]⟩,
          MODELS_TO_TRY) := by
  have hne : apiKeys.isEmpty = false := by
    cases apiKeys with
    | nil => exact absurd rfl hk
    | cons a t => rfl
  obtain ⟨e0, he0, hr0⟩ := hb 0 "gemini-2.5-flash"
  obtain ⟨e1, he1, hr1⟩ := hb 1 "gemini-2.5-flash-lite"
  obtain ⟨e2, he2, hr2⟩ := hb 2 "gemini-2.0-flash"
  obtain ⟨e3, he3, hr3⟩ := hb 3 "gemma-3-27b-it"
  obtain ⟨e4, he4, hr4⟩ := hb 4 "gemma-3-12b-it"
  obtain ⟨e5, he5, hr5⟩ := hb 5 "gemma-3-4b-it"
  obtain ⟨e6, he6, hr6⟩ := hb 6 "gemma-3-2b-it"
  have g0 : get_next_model_config apiKeys ⟨0, 0, []⟩ =
      Except.ok (("gemini-2.5-flash", apiKeys.getD (0 % apiKeys.length) ""), ⟨0, 0, []⟩) :=
    gnmc_found apiKeys ⟨0, 0, []⟩ "gemini-2.5-flash" 0 hne (by decide)
  have g1 : get_next_model_config apiKeys ⟨1, 0, ["gemini-2.5-flash"]⟩ =
      Except.ok (("gemini-2.5-flash-lite", apiKeys.getD (0 % apiKeys.length) ""),
        ⟨1, 0, ["gemini-2.5-flash"]⟩) :=
    gnmc_found apiKeys ⟨1, 0, ["gemini-2.5-flash"]⟩ "gemini-2.5-flash-lite" 1 hne (by decide)
  have g2 : get_next_model_config apiKeys
      ⟨2, 0, ["gemini-2.5-flash-lite", "gemini-2.5-flash"]⟩ =
      Except.ok (("gemini-2.0-flash", apiKeys.getD (0 % apiKeys.length) ""),
        ⟨2, 0, ["gemini-2.5-flash-lite", "gemini-2.5-flash"]⟩) :=
    gnmc_found apiKeys ⟨2, 0, ["gemini-2.5-flash-lite", "gemini-2.5-flash"]⟩
      "gemini-2.0-flash" 2 hne (by decide)
  have g3 : get_next_model_config apiKeys
      ⟨3, 0, ["gemini-2.0-flash", "gemini-2.5-flash-lite", "gemini-2.5-flash"]⟩ =
      Except.ok (("gemma-3-27b-it", apiKeys.getD (0 % apiKeys.length) ""),
        ⟨3, 0, ["gemini-2.0-flash", "gemini-2.5-flash-lite", "gemini-2.5-flash"]⟩) :=
    gnmc_found apiKeys
      ⟨3, 0, ["gemini-2.0-flash", "gemini-2.5-flash-lite", "gemini-2.5-flash"]⟩
      "gemma-3-27b-it" 3 hne (by decide)
  have g4 : get_next_model_config apiKeys
      ⟨4, 0, ["gemma-3-27b-it", "gemini-2.0-flash", "gemini-2.5-flash-lite",
        "gemini-2.5-flash"]⟩ =
      Except.ok (("gemma-3-12b-it", apiKeys.getD (0 % apiKeys.length) ""),
        ⟨4, 0, ["gemma-3-27b-it", "gemini-2.0-flash", "gemini-2.5-flash-lite",
          "gemini-2.5-flash"]⟩) :=
    gnmc_found apiKeys
      ⟨4, 0, ["gemma-3-27b-it", "gemini-2.0-flash", "gemini-2.5-flash-lite",
        "gemini-2.5-flash"]⟩
      "gemma-3-12b-it" 4 hne (by decide)
  have g5 : get_next_model_config apiKeys
      ⟨5, 0, ["gemma-3-12b-it", "gemma-3-27b-it", "gemini-2.0-flash",
        "gemini-2.5-flash-lite", "gemini-2.5-flash"]⟩ =
      Except.ok (("gemma-3-4b-it", apiKeys.getD (0 % apiKeys.length) ""),
        ⟨5, 0, ["gemma-3-12b-it", "gemma-3-27b-it", "gemini-2.0-flash",
          "gemini-2.5-flash-lite", "gemini-2.5-flash"]⟩) :=
    gnmc_found apiKeys
      ⟨5, 0, ["gemma-3-12b-it", "gemma-3-27b-it", "gemini-2.0-flash",
        "gemini-2.5-flash-lite", "gemini-2.5-flash"]⟩
      "gemma-3-4b-it" 5 hne (by decide)
  have g6 : get_next_model_config apiKeys
      ⟨6, 0, ["gemma-3-4b-it", "gemma-3-12b-it", "gemma-3-27b-it", "gemini-2.0-flash",
        "gemini-2.5-flash-lite", "gemini-2.5-flash"]⟩ =
      Except.ok (("gemma-3-2b-it", apiKeys.getD (0 % apiKeys.length) ""),
        ⟨6, 0, ["gemma-3-4b-it", "gemma-3-12b-it", "gemma-3-27b-it", "gemini-2.0-flash",
          "gemini-2.5-flash-lite", "gemini-2.5-flash"]⟩) :=
    gnmc_found apiKeys
      ⟨6, 0, ["gemma-3-4b-it", "gemma-3-12b-it", "gemma-3-27b-it", "gemini-2.0-flash",
        "gemini-2.5-flash-lite", "gemini-2.5-flash"]⟩
      "gemma-3-2b-it" 6 hne (by decide)
  refine ⟨e6, he6, ?_⟩
  have t0 : chatLoop invoke apiKeys cid 7 0 ⟨0, 0, []⟩ none [] =
      chatLoop invoke apiKeys cid 6 1 ⟨1, 0, ["gemini-2.5-flash"]⟩ (some e0)
        ["gemini-2.5-flash"] := by
    rw [show (7 : Nat) = 6 + 1 from rfl, chatLoop_succ]
    simp [g0, g1, he0, hr0, rotate_to_next_model, addFailed, MAX_ROTATION_RETRIES]
  have t1 : chatLoop invoke apiKeys cid 6 1 ⟨1, 0, ["gemini-2.5-flash"]⟩ (some e0)
      ["gemini-2.5-flash"] =
      chatLoop invoke apiKeys cid 5 2 ⟨2, 0, ["gemini-2.5-flash-lite", "gemini-2.5-flash"]⟩
        (some e1) ["gemini-2.5-flash", "gemini-2.5-flash-lite"] := by
    rw [show (6 : Nat) = 5 + 1 from rfl, chatLoop_succ]
    simp [g1, g2, he1, hr1, rotate_to_next_model, addFailed, MAX_ROTATION_RETRIES]
  have t2 : chatLoop invoke apiKeys cid 5 2
      ⟨2, 0, ["gemini-2.5-flash-lite", "gemini-2.5-flash"]⟩ (some e1)
      ["gemini-2.5-flash", "gemini-2.5-flash-lite"] =
      chatLoop invoke apiKeys cid 4 3
        ⟨3, 0, ["gemini-2.0-flash", "gemini-2.5-flash-lite", "gemini-2.5-flash"]⟩ (some e2)
        ["gemini-2.5-flash", "gemini-2.5-flash-lite", "gemini-2.0-flash"] := by
    rw [show (5 : Nat) = 4 + 1 from rfl, chatLoop_succ]
    simp [g2, g3, he2, hr2, rotate_to_next_model, addFailed, MAX_ROTATION_RETRIES]
  have t3 : chatLoop invoke apiKeys cid 4 3
      ⟨3, 0, ["gemini-2.0-flash", "gemini-2.5-flash-lite", "gemini-2.5-flash"]⟩ (some e2)
      ["gemini-2.5-flash", "gemini-2.5-flash-lite", "gemini-2.0-flash"] =
      chatLoop invoke apiKeys cid 3 4
        ⟨4, 0, ["gemma-3-27b-it", "gemini-2.0-flash", "gemini-2.5-flash-lite",
          "gemini-2.5-flash"]⟩ (some e3)
        ["gemini-2.5-flash", "gemini-2.5-flash-lite", "gemini-2.0-flash",
          "gemma-3-27b-it"] := by
    rw [show (4 : Nat) = 3 + 1 from rfl, chatLoop_succ]
    simp [g3, g4, he3, hr3, rotate_to_next_model, addFailed, MAX_ROTATION_RETRIES]
  have t4 : chatLoop invoke apiKeys cid 3 4
      ⟨4, 0, ["gemma-3-27b-it", "gemini-2.0-flash", "gemini-2.5-flash-lite",
        "gemini-2.5-flash"]⟩ (some e3)
      ["gemini-2.5-flash", "gemini-2.5-flash-lite", "gemini-2.0-flash", "gemma-3-27b-it"] =
      chatLoop invoke apiKeys cid 2 5
        ⟨5, 0, ["gemma-3-12b-it", "gemma-3-27b-it", "gemini-2.0-flash",
          "gemini-2.5-flash-lite", "gemini-2.5-flash"]⟩ (some e4)
        ["gemini-2.5-flash", "gemini-2.5-flash-lite", "gemini-2.0-flash",
          "gemma-3-27b-it", "gemma-3-12b-it"] := by
    rw [show (3 : Nat) = 2 + 1 from rfl, chatLoop_succ]
    simp [g4, g5, he4, hr4, rotate_to_next_model, addFailed, MAX_ROTATION_RETRIES]
  have t5 : chatLoop invoke apiKeys cid 2 5
      ⟨5, 0, ["gemma-3-12b-it", "gemma-3-27b-it", "gemini-2.0-flash",
        "gemini-2.5-flash-lite", "gemini-2.5-flash"]⟩ (some e4)
      ["gemini-2.5-flash", "gemini-2.5-flash-lite", "gemini-2.0-flash",
        "gemma-3-27b-it", "gemma-3-12b-it"] =
      chatLoop invoke apiKeys cid 1 6
        ⟨6, 0, ["gemma-3-4b-it", "gemma-3-12b-it", "gemma-3-27b-it", "gemini-2.0-flash",
          "gemini-2.5-flash-lite", "gemini-2.5-flash"]⟩ (some e5)
        ["gemini-2.5-flash", "gemini-2.5-flash-lite", "gemini-2.0-flash",
          "gemma-3-27b-it", "gemma-3-12b-it", "gemma-3-4b-it"] := by
    rw [show (2 : Nat) = 1 + 1 from rfl, chatLoop_succ]
    simp [g5, g6, he5, hr5, rotate_to_next_model, addFailed, MAX_ROTATION_RETRIES]
  have t6 : chatLoop invoke apiKeys cid 1 6
      ⟨6, 0, ["gemma-3-4b-it", "gemma-3-12b-it", "gemma-3-27b-it", "gemini-2.0-flash",
        "gemini-2.5-flash-lite", "gemini-2.5-flash"]⟩ (some e5)
      ["gemini-2.5-flash", "gemini-2.5-flash-lite", "gemini-2.0-flash",
        "gemma-3-27b-it", "gemma-3-12b-it", "gemma-3-4b-it"] =
      Except.ok (failureResult (some e6),
        ⟨6, 0, ["gemma-3-4b-it", "gemma-3-12b-it", "gemma-3-27b-it", "gemini-2.0-flash",
          "gemini-2.5-flash-lite", "gemini-2.5-flash"]⟩,
        ["gemini-2.5-flash", "gemini-2.5-flash-lite", "gemini-2.0-flash",
          "gemma-3-27b-it", "gemma-3-12b-it", "gemma-3-4b-it", "gemma-3-2b-it"]) := by
    rw [show (1 : Nat) = 0 + 1 from rfl, chatLoop_succ]
    simp [g6, he6, MAX_ROTATION_RETRIES]
  show chatLoop invoke apiKeys cid MAX_ROTATION_RETRIES 0 ⟨0, 0, []⟩ none [] = _
  rw [show MAX_ROTATION_RETRIES = 7 from rfl, t0, t1, t2, t3, t4, t5, t6]
  rfl

theorem claim_C3_seven_attempts_witness :
    ∃ e6, (fun (_ : Nat) (_ : String) => InvokeResult.err "quota hit") 6 "gemma-3-2b-it" =
        InvokeResult.err e6 ∧
      agentic_chat (fun _ _ => InvokeResult.err "quota hit") ["k1"] "conv1" ⟨0, 0, []⟩ =
        Except.ok (failureResult (some e6),
          ⟨6, 0, ["gemma-3-4b-it", "gemma-3-12b-it", "gemma-3-27b-it",
                  "gemini-2.0-flash", "gemini-2.5-flash-lite", "gemini-2.5-flash"]⟩,
          MODELS_TO_TRY) :=
  claim_C3_seven_attempts (fun _ _ => InvokeResult.err "quota hit") ["k1"] "conv1"
    (by decide) (fun _ _ => ⟨"quota hit", rfl, by decide⟩)

/-! ### Claims C5 and C8: error classification and result-field shape -/

theorem mem_addFailed_self (m : String) (l : List String) : m ∈ addFailed m l := by
  unfold addFailed
  split
  · assumption
  · exact List.mem_cons_self m l

theorem not_mem_addFailed (x m : String) (l : List String)
    (hx : x ≠ m) (hl : x ∉ l) : x ∉ addFailed m l := by
  unfold addFailed
  split
  · exact hl
  · intro hc
    rcases List.mem_cons.mp hc with h | h
    · exact hx h
    · exact hl h

theorem gnmc_stable (apiKeys : List String) (s : RotationState)
    (hne : apiKeys.isEmpty = false) (hnall : allFailed s = false) :
    ∃ m i, get_next_model_config apiKeys s =
        Except.ok ((m, apiKeys.getD (s.keyIndex % apiKeys.length) ""),
          { s with modelIndex := i }) ∧
      m ∉ s.failedModels ∧
      get_next_model_config apiKeys { s with modelIndex := i } =
        Except.ok ((m, apiKeys.getD (s.keyIndex % apiKeys.length) ""),
          { s with modelIndex := i }) := by
  obtain ⟨t, ht, hnot⟩ := exists_probe_of_not_allFailed s s.modelIndex hnall
  obtain ⟨m, i, hfind, hmem, hidx⟩ :=
    findModelLoop_some MODELS_TO_TRY.length s.failedModels s.modelIndex ⟨t, ht, hnot⟩
  refine ⟨m, i, gnmc_found apiKeys s m i hne hfind, hmem, ?_⟩
  have hfind2 : findModelLoop MODELS_TO_TRY.length i s.failedModels = some (m, i) := by
    rw [show MODELS_TO_TRY.length = 6 + 1 from rfl]
    simp only [findModelLoop]
    rw [← hidx, if_neg hmem]
  exact gnmc_found apiKeys { s with modelIndex := i } m i hne hfind2

theorem gnmc_ok (apiKeys : List String) (s : RotationState)
    (hne : apiKeys.isEmpty = false) :
    ∃ mk s2, get_next_model_config apiKeys s = Except.ok (mk, s2) := by
  unfold get_next_model_config
  rw [hne]
  rcases findModelLoop MODELS_TO_TRY.length s.modelIndex s.failedModels with _ | ⟨m, i⟩
  · exact ⟨_, _, rfl⟩
  · exact ⟨_, _, rfl⟩

/-- C5: an error is classified retryable iff its lowercased text contains
one of the quota / rate-limit / not-found markers; a retryable error on an
attempt with attempts remaining marks the active model failed and proceeds
to the next attempt; a fatal error aborts immediately with no model marked
failed and no further attempt. -/
theorem claim_C5_error_handling :
    (∀ e : String, is_retryable_error e = true ↔
      ∃ m ∈ retryableMarkers, infixOfB m.data (e.data.map Char.toLower) = true) ∧
    (∀ (invoke : Nat → String → InvokeResult) (apiKeys : List String) (cid : String)
        (s : RotationState) (e : String),
      apiKeys ≠ [] → allFailed s = false →
      (∀ mo, invoke 0 mo = InvokeResult.err e) →
      ∃ m i, get_next_model_config apiKeys s =
          Except.ok ((m, apiKeys.getD (s.keyIndex % apiKeys.length) ""),
            { s with modelIndex := i }) ∧
        m ∉ s.failedModels ∧
        (is_retryable_error e = true →
          (∃ m2, m2 ∈ MODELS_TO_TRY ∧ m2 ∉ s.failedModels ∧ m2 ≠ m) →
          ∃ s4, m ∈ s4.failedModels ∧
            chatLoop invoke apiKeys cid 7 0 s none [] =
              chatLoop invoke apiKeys cid 6 1 s4 (some e) [m]) ∧
        (is_retryable_error e = false →
          chatLoop invoke apiKeys cid 7 0 s none [] =
            Except.ok (failureResult (some e), { s with modelIndex := i }, [m]) ∧
          ({ s with modelIndex := i } : RotationState).failedModels = s.failedModels)) := by
  constructor
  · intro e
    simp [is_retryable_error, List.any_eq_true]
  · intro invoke apiKeys cid s e hk hnall hinv
    have hne : apiKeys.isEmpty = false := by
      cases apiKeys with
      | nil => exact absurd rfl hk
      | cons a t => rfl
    obtain ⟨m, i, hgn, hmem, hgn2⟩ := gnmc_stable apiKeys s hne hnall
    refine ⟨m, i, hgn, hmem, ?_, ?_⟩
    · intro hret ⟨m2, hm2mem, hm2not, hm2ne⟩
      -- the rotated state still has a live candidate, so the rotation's
      -- internal get_next_model_config lands in the found branch
      have hnall2 : allFailed ⟨i + 1, s.keyIndex, addFailed m s.failedModels⟩ = false := by
        by_contra hc
        have hall : allFailed ⟨i + 1, s.keyIndex, addFailed m s.failedModels⟩ = true := by
          cases hall2 : allFailed ⟨i + 1, s.keyIndex, addFailed m s.failedModels⟩
          · exact absurd hall2 hc
          · rfl
        have := List.all_eq_true.mp hall m2 hm2mem
        simp only [decide_eq_true_eq] at this
        exact not_mem_addFailed m2 m s.failedModels hm2ne hm2not this
      obtain ⟨mR, iR, hgnR, _, _⟩ :=
        gnmc_stable apiKeys ⟨i + 1, s.keyIndex, addFailed m s.failedModels⟩ hne hnall2
      refine ⟨⟨iR, s.keyIndex, addFailed m s.failedModels⟩,
        mem_addFailed_self m s.failedModels, ?_⟩
      rw [show (7 : Nat) = 6 + 1 from rfl, chatLoop_succ]
      rw [hgn]
      simp only [hgn2, hinv m, hret, MAX_ROTATION_RETRIES]
      simp [rotate_to_next_model, hgnR]
    · intro hret
      refine ⟨?_, rfl⟩
      rw [show (7 : Nat) = 6 + 1 from rfl, chatLoop_succ]
      rw [hgn]
      simp only [hgn2, hinv m, hret, MAX_ROTATION_RETRIES]
      simp

theorem claim_C5_error_handling_witness :
    (is_retryable_error "RATE_LIMIT: slow down" = true ↔
      ∃ m ∈ retryableMarkers,
        infixOfB m.data ("RATE_LIMIT: slow down".data.map Char.toLower) = true) ∧
    (∃ m i, get_next_model_config ["k1"] ⟨0, 0, []⟩ =
        Except.ok ((m, ["k1"].getD (0 % (["k1"] : List String).length) ""),
          { (⟨0, 0, []⟩ : RotationState) with modelIndex := i }) ∧
      m ∉ (⟨0, 0, []⟩ : RotationState).failedModels ∧
      (is_retryable_error "boom" = true →
        (∃ m2, m2 ∈ MODELS_TO_TRY ∧ m2 ∉ (⟨0, 0, []⟩ : RotationState).failedModels ∧ m2 ≠ m) →
        ∃ s4, m ∈ s4.failedModels ∧
          chatLoop (fun _ _ => InvokeResult.err "boom") ["k1"] "c2" 7 0 ⟨0, 0, []⟩ none [] =
            chatLoop (fun _ _ => InvokeResult.err "boom") ["k1"] "c2" 6 1 s4 (some "boom") [m]) ∧
      (is_retryable_error "boom" = false →
        chatLoop (fun _ _ => InvokeResult.err "boom") ["k1"] "c2" 7 0 ⟨0, 0, []⟩ none [] =
          Except.ok (failureResult (some "boom"),
            { (⟨0, 0, []⟩ : RotationState) with modelIndex := i }, [m]) ∧
        ({ (⟨0, 0, []⟩ : RotationState) with modelIndex := i } : RotationState).failedModels =
          (⟨0, 0, []⟩ : RotationState).failedModels)) :=
  ⟨claim_C5_error_handling.1 "RATE_LIMIT: slow down",
   claim_C5_error_handling.2 (fun _ _ => InvokeResult.err "boom") ["k1"] "c2" ⟨0, 0, []⟩
     "boom" (by decide) (by decide) (fun _ => rfl)⟩

/-- C8 counterexample: on an all-fatal run the returned record omits both
the conversation id and the model used (the failure dictionary at source
lines 1216-1220 has no such keys), refuting "all four fields on failure
paths as well". -/
theorem claim_C8_counterexample :
    ∃ res s2 log2,
      agentic_chat (fun _ _ => InvokeResult.err "boom") ["k1"] "c9" ⟨0, 0, []⟩ =
        Except.ok (res, s2, log2) ∧
      res.conversation_id = none ∧ res.model_used = none := by
  refine ⟨failureResult (some "boom"), ⟨0, 0, []⟩, ["gemini-2.5-flash"], ?_, rfl, rfl⟩
  rfl

/-- C8 (amended): every successful attempt returns a record with all
four fields populated (`response`, `actions`, `conversation_id`,
`model_used`); the failure path returns `response` (embedding the error),
an empty `actions` list and the `error` text, but omits
`conversation_id` and `model_used`. -/
theorem claim_C8_result_fields (invoke : Nat → String → InvokeResult)
    (apiKeys : List String) (cid : String) :
    ∀ (r attempt : Nat) (s : RotationState) (lastErr : Option String) (log : List String)
      (res : ChatResult) (s2 : RotationState) (log2 : List String),
      chatLoop invoke apiKeys cid r attempt s lastErr log = Except.ok (res, s2, log2) →
      ((res.error = none → res.conversation_id = some cid ∧ res.model_used ≠ none) ∧
       (∀ e, res.error = some e →
         res.conversation_id = none ∧ res.model_used = none ∧
         res.actions = [] ∧ res.response = failureResponse e)) := by
  intro r
  induction r with
  | zero =>
    intro attempt s lastErr log res s2 log2 h
    rw [show chatLoop invoke apiKeys cid 0 attempt s lastErr log =
      Except.ok (failureResult lastErr, s, log) from rfl] at h
    simp only [Except.ok.injEq, Prod.mk.injEq] at h
    obtain ⟨hres, hs2, hlog⟩ := h
    subst hres
    constructor
    · intro hnone
      simp [failureResult] at hnone
    · intro e' he'
      simp only [failureResult, Option.some.injEq] at he'
      subst he'
      exact ⟨rfl, rfl, rfl, rfl⟩
  | succ r ih =>
    intro attempt s lastErr log res s2 log2 h
    rw [chatLoop_succ] at h
    repeat' split at h
    any_goals (exfalso; exact Except.noConfusion h)
    any_goals exact ih _ _ _ _ _ _ _ h
    · -- success dictionary
      simp only [Except.ok.injEq, Prod.mk.injEq] at h
      obtain ⟨hres, hs2, hlog⟩ := h
      subst hres
      constructor
      · intro _
        exact ⟨rfl, by simp⟩
      · intro e' he'
        simp at he'
    · -- failure dictionary
      simp only [Except.ok.injEq, Prod.mk.injEq] at h
      obtain ⟨hres, hs2, hlog⟩ := h
      subst hres
      constructor
      · intro hnone
        simp [failureResult] at hnone
      · intro e' he'
        simp only [failureResult, Option.getD_some, Option.some.injEq] at he'
        subst he'
        exact ⟨rfl, rfl, rfl, rfl⟩

/-- The successful-run record used to witness the C8 field-shape theorem. -/
def c8SuccessRecord : ChatResult :=
  { response := "hi", actions := [], conversation_id := some "c8",
    model_used := some "gemini-2.5-flash", error := none }

theorem claim_C8_result_fields_witness :
    (c8SuccessRecord.error = none →
      c8SuccessRecord.conversation_id = some "c8" ∧ c8SuccessRecord.model_used ≠ none) ∧
    (∀ e, c8SuccessRecord.error = some e →
      c8SuccessRecord.conversation_id = none ∧ c8SuccessRecord.model_used = none ∧
      c8SuccessRecord.actions = [] ∧ c8SuccessRecord.response = failureResponse e) :=
  claim_C8_result_fields (fun _ _ => InvokeResult.ok [Msg.ai "hi" []] []) ["k1"] "c8"
    7 0 ⟨0, 0, []⟩ none [] c8SuccessRecord ⟨0, 0, []⟩ ["gemini-2.5-flash"] rfl

/-! ### Claim C7: plain-text answer terminates the loop in one step -/

/-- C7: if the model returns a plain-text answer (no tool calls) on the
first invocation, the agent loop terminates after exactly one reasoning
step — for any remaining fuel the final state is the initial one plus the
single agent message — with zero ToolActions recorded; the returned
response text is the last textual agent message, and when no textual
content exists the fixed fallback acknowledgement is returned. -/
theorem claim_C7_single_step (llm : List Msg → Msg) (toolExec : ToolCall → String)
    (uid : String) (msgs : List Msg) (c : String) (fuel : Nat)
    (hllm : llm (agentWindow uid msgs) = Msg.ai c []) :
    runGraph llm toolExec (fuel + 1) ⟨msgs, uid, []⟩ =
      some ⟨msgs ++ [Msg.ai c []], uid, []⟩ ∧
    ((msgs ++ [Msg.ai c []]).all (fun m => !isTextualAI m) = true →
      finalResponse (msgs ++ [Msg.ai c []]) = "Done! ✅") ∧
    (c ≠ "" → finalResponse (msgs ++ [Msg.ai c []]) = c) := by
  refine ⟨?_, ?_, ?_⟩
  · simp only [runGraph]
    simp [hllm]
  · intro hall
    have hfind : List.find? isTextualAI (Msg.ai c [] :: msgs.reverse) = none := by
      rw [List.find?_eq_none]
      intro x hx
      rcases List.mem_cons.mp hx with h | h
      · subst h
        have := List.all_eq_true.mp hall (Msg.ai c []) (by simp)
        simpa using this
      · have hxm : x ∈ msgs ++ [Msg.ai c []] :=
          List.mem_append_left _ (List.mem_reverse.mp h)
        have := List.all_eq_true.mp hall x hxm
        simpa using this
    simp [finalResponse, extractRaw, hfind]
  · intro hc
    have hfind : List.find? isTextualAI (Msg.ai c [] :: msgs.reverse) =
        some (Msg.ai c []) := by
      simp [List.find?, isTextualAI, hc]
    simp [finalResponse, extractRaw, hfind, hc]

theorem claim_C7_single_step_witness :
    (fun (_ : List Msg) => Msg.ai "hello" []) (agentWindow "u7" [Msg.human "hi"]) =
      Msg.ai "hello" [] ∧
    (runGraph (fun _ => Msg.ai "hello" []) (fun _ => "") (0 + 1) ⟨[Msg.human "hi"], "u7", []⟩ =
        some ⟨[Msg.human "hi"] ++ [Msg.ai "hello" []], "u7", []⟩ ∧
      (([Msg.human "hi"] ++ [Msg.ai "hello" []]).all (fun m => !isTextualAI m) = true →
        finalResponse ([Msg.human "hi"] ++ [Msg.ai "hello" []]) = "Done! ✅") ∧
      ("hello" ≠ "" →
        finalResponse ([Msg.human "hi"] ++ [Msg.ai "hello" []]) = "hello")) :=
  ⟨rfl, claim_C7_single_step (fun _ => Msg.ai "hello" []) (fun _ => "") "u7"
    [Msg.human "hi"] "hello" 0 rfl⟩

/-! ### Claim C4: proactive nudge injection -/

/-- The synthesized nudge instruction message content (source lines
1121-1122). -/
def nudgeInstruction (rows : List (String × String)) : String :=
  "IMPORTANT: The user has UNREAD NOTIFICATIONS that require action:\n" ++
    String.intercalate "\n" (rows.map (fun n => "- " ++ n.1 ++ ": " ++ n.2)) ++
    "\n\nYou MUST proactively mention these to the user in your response (e.g., 'By the way, I noticed you have...'). Do not ignore this context."

/-- The initial-message construction of `agentic_chat` (source lines
1113-1151): prepend a single system message summarising the unread nudges
when the (limit-3) fetch returned any (a failed fetch is only logged),
then map the most recent `MAX_HISTORY_MESSAGES - 1` history entries
(user/assistant roles), then append the new human message (the image-free
path). -/
def buildInitialMessages (nudgeFetch : Except String (List (String × String)))
    (history : List (String × String)) (message : String) : List Msg :=
  let base : List Msg :=
    match nudgeFetch with
    | Except.ok rows =>
      if rows.isEmpty then [] else [Msg.system (nudgeInstruction rows)]
    | Except.error _ => []
  let recent_history :=
    if history.length > MAX_HISTORY_MESSAGES - 1 then
      history.drop (history.length - (MAX_HISTORY_MESSAGES - 1))
    else history
  let histMsgs := recent_history.filterMap (fun h =>
    if h.1 = "user" then some (Msg.human h.2)
    else if h.1 = "assistant" then some (Msg.ai h.2 []) else none)
  base ++ histMsgs ++ [Msg.human message]

/-- C4 (code-bug evidence): for a user with two unread notifications the
injector does prepend the synthesized System message, but the first
window handed to the model has *replaced* it with the standard identity
prompt (`agent_node` lines 950-957 overwrite the first SystemMessage), so
the single System message in the window is the identity prompt, not a
summary of the notifications — the summary never reaches the model. -/
theorem claim_C4_nudge_clobbered :
    buildInitialMessages
        (Except.ok [("Title One", "Content One"), ("Title Two", "Content Two")]) [] "hi" =
      [Msg.system (nudgeInstruction [("Title One", "Content One"), ("Title Two", "Content Two")]),
        Msg.human "hi"] ∧
    agentWindow "user-1"
        (buildInitialMessages
          (Except.ok [("Title One", "Content One"), ("Title Two", "Content Two")]) [] "hi") =
      [Msg.system (currentSystemPrompt "user-1"), Msg.human "hi"] ∧
    currentSystemPrompt "user-1" ≠
      nudgeInstruction [("Title One", "Content One"), ("Title Two", "Content Two")] ∧
    (agentWindow "user-1"
        (buildInitialMessages
          (Except.ok [("Title One", "Content One"), ("Title Two", "Content Two")]) [] "hi")).countP
      (fun m => isSystemB m) = 1 := by
  refine ⟨rfl, rfl, by decide, by decide⟩

/-! ### Tool registry (source lines 58-799)

Each tool handler wraps its body in `try/except`, returning
`{"success": False, "error": str(e)}` on any exception; database queries
and other external effects are oracle fields (`Except`-typed: `error` =
the query raised).  Numeric amounts are modelled as integers and float
formatting as plain `toString`; neither affects the result-shape claims.
-/

/-- JSON-ish values for tool result dictionaries. -/
inductive JVal where
  | s (v : String)
  | i (v : Int)
  | b (v : Bool)
  | null
  | arr (v : List JVal)
  | obj (v : List (String × JVal))

/-- A tool result dictionary: ordered key/value pairs. -/
abbrev JDict := List (String × JVal)

/-- The `except` branch result `{"success": False, "error": str(e)}`. -/
def errDict (e : String) : JDict :=
  [("success", JVal.b false), ("error", JVal.s e)]

/-- The `try/except` wrapper common to the tool handlers. -/
def toolWrap (r : Except String JDict) : JDict :=
  match r with
  | Except.ok d => d
  | Except.error e => errDict e

/-- Does the dictionary contain the key? -/
def hasKey (d : JDict) (k : String) : Bool := d.any (fun kv => kv.1 = k)

/-- A calendar date, as produced by `datetime.strptime(s, "%Y-%m-%d")`. -/
structure YMDDate where
  y : Int
  m : Int
  d : Int
deriving DecidableEq, Repr

/-- `datetime.strptime(s, "%Y-%m-%d")` success/failure (simplified
calendar validation; a failure is the `ValueError` branch). -/
def parseYMD (s : String) : Option YMDDate :=
  match s.splitOn "-" with
  | [ys, ms, ds] =>
    match ys.toNat?, ms.toNat?, ds.toNat? with
    | some y, some m, some d =>
      if 1 ≤ m ∧ m ≤ 12 ∧ 1 ≤ d ∧ d ≤ 31 then
        some ⟨(y : Int), (m : Int), (d : Int)⟩
      else none
    | _, _, _ => none
  | _ => none

/-- Civil-calendar day number (Hinnant's formula); models
`(end - start).days` via subtraction of day numbers. -/
def daysFromCivil (dt : YMDDate) : Int :=
  let yr := if dt.m ≤ 2 then dt.y - 1 else dt.y
  let era := yr / 400
  let yoe := yr - era * 400
  let mp := (dt.m + 9) % 12
  let doy := (153 * mp + 2) / 5 + dt.d - 1
  let doe := yoe * 365 + yoe / 4 - yoe / 100 + doy
  era * 146097 + doe

/-- Date comparison (`start < date.today()`). -/
def dateLt (a b : YMDDate) : Bool :=
  if a.y < b.y then true
  else if b.y < a.y then false
  else if a.m < b.m then true
  else if b.m < a.m then false
  else decide (a.d < b.d)

/-- Python lexicographic string `<` on code points. -/
def charListLt : List Char → List Char → Bool
  | [], [] => false
  | [], _ :: _ => true
  | _ :: _, [] => false
  | a :: as, b :: bs =>
    if a.val < b.val then true
    else if b.val < a.val then false
    else charListLt as bs

/-- Python string `<`. -/
def strLtB (a b : String) : Bool := charListLt a.data b.data

/-- Python string `<=`. -/
def strLeB (a b : String) : Bool := !strLtB b a

/-- A `leave_types` row (fields the handlers read). -/
structure LeaveTypeRow where
  id : String
  name : String
  default_days : Option Int
deriving DecidableEq, Repr

/-- A `leave_balances` row. -/
structure BalanceRow where
  id : String
  total_days : Int
  used_days : Int
  pending_days : Int
deriving DecidableEq, Repr

/-- Oracle environment of `get_leave_balance`: the `leave_types` query
and the per-type `leave_balances` query. -/
structure LeaveBalanceEnv where
  leave_types : Except String (List LeaveTypeRow)
  leave_balances : String → Except String (List BalanceRow)

/-- The per-type loop of `get_leave_balance` (source lines 76-100):
returns the balance entries in order plus the remaining-days total. -/
def leaveBalanceFold : List LeaveTypeRow → (String → Except String (List BalanceRow)) →
    Except String (List JVal × Int)
  | [], _ => Except.ok ([], 0)
  | lt :: rest, q =>
    match q lt.id with
    | Except.error e => Except.error e
    | Except.ok rows =>
      let bal := match rows with
        | b0 :: _ => (b0.total_days, b0.used_days, b0.pending_days)
        | [] => (lt.default_days.getD 14, 0, 0)
      let remaining := bal.1 - bal.2.1 - bal.2.2
      match leaveBalanceFold rest q with
      | Except.error e => Except.error e
      | Except.ok (acc, tot) =>
        Except.ok
          (JVal.obj [("type", JVal.s lt.name), ("total", JVal.i bal.1),
            ("used", JVal.i bal.2.1), ("pending", JVal.i bal.2.2),
            ("remaining", JVal.i remaining)] :: acc,
          remaining + tot)

/-- `get_leave_balance` (source lines 58-109). -/
def get_leave_balance (env : LeaveBalanceEnv) : JDict :=
  toolWrap
    (match env.leave_types with
    | Except.error e => Except.error e
    | Except.ok types =>
      match leaveBalanceFold types env.leave_balances with
      | Except.error e => Except.error e
      | Except.ok (balances, total) =>
        Except.ok [("success", JVal.b true), ("balances", JVal.arr balances),
          ("summary", JVal.s ("Total remaining leave: " ++ toString total ++ " days"))])

/-- Oracle environment of `apply_leave`: type lookup, the fallback
name-list query, today's date, the balance query, the balance update and
the insert. -/
structure ApplyLeaveEnv where
  leave_type_lookup : Except String (List LeaveTypeRow)
  available_types : Except String (List String)
  today : YMDDate
  balance : Except String (List BalanceRow)
  update_balance : Except String Unit
  insert_leave : Except String (List String)

/-- Shared insert-and-confirm tail of `apply_leave` (source lines
194-218). -/
def applyLeaveInsert (env : ApplyLeaveEnv) (lt : LeaveTypeRow) (total_days : Int)
    (start_date end_date : String) : Except String JDict :=
  match env.insert_leave with
  | Except.error e => Except.error e
  | Except.ok ids =>
    Except.ok [("success", JVal.b true),
      ("message", JVal.s ("✅ " ++ lt.name ++ " leave applied successfully!")),
      ("details", JVal.obj [("type", JVal.s lt.name), ("start", JVal.s start_date),
        ("end", JVal.s end_date), ("days", JVal.i total_days),
        ("status", JVal.s "pending"),
        ("leave_id", match ids with | x :: _ => JVal.s x | [] => JVal.null)])]

/-- `apply_leave` (source lines 112-221). -/
def apply_leave (env : ApplyLeaveEnv)
    (user_id leave_type start_date end_date reason : String) : JDict :=
  toolWrap
    (match env.leave_type_lookup with
    | Except.error e => Except.error e
    | Except.ok [] =>
      match env.available_types with
      | Except.error e => Except.error e
      | Except.ok names =>
        Except.ok [("success", JVal.b false),
          ("error", JVal.s ("Leave type '" ++ leave_type ++ "' not found")),
          ("available_types", JVal.arr (names.map JVal.s)),
          ("suggestion", JVal.s "Please specify one of the available leave types")]
    | Except.ok (lt :: _) =>
      match parseYMD start_date, parseYMD end_date with
      | some start, some stop =>
        let total_days := daysFromCivil stop - daysFromCivil start + 1
        if total_days ≤ 0 then
          Except.ok [("success", JVal.b false),
            ("error", JVal.s "End date must be after start date")]
        else if dateLt start env.today then
          Except.ok [("success", JVal.b false),
            ("error", JVal.s "Cannot apply leave for past dates")]
        else
          match env.balance with
          | Except.error e => Except.error e
          | Except.ok (b0 :: _) =>
            let remaining := b0.total_days - b0.used_days - b0.pending_days
            if total_days > remaining then
              Except.ok [("success", JVal.b false),
                ("error", JVal.s ("Insufficient " ++ lt.name ++ " balance!")),
                ("requested", JVal.i total_days), ("remaining", JVal.i remaining),
                ("suggestion", JVal.s ("You only have " ++ toString remaining ++
                  " days. Consider applying for fewer days or different leave type."))]
            else
              match env.update_balance with
              | Except.error e => Except.error e
              | Except.ok _ => applyLeaveInsert env lt total_days start_date end_date
          | Except.ok [] => applyLeaveInsert env lt total_days start_date end_date
      | _, _ =>
        Except.ok [("success", JVal.b false),
          ("error", JVal.s "Invalid date format. Please use YYYY-MM-DD format"),
          ("suggestion", JVal.s "Example: 2026-02-01")])

/-- A `leave_requests` row with its joined type name. -/
structure LeaveReqRow where
  id : String
  type_name : Option String
  start_date : String
  end_date : String
  total_days : Int
  status : String
  reason : Option String
deriving DecidableEq, Repr

/-- `get_my_leaves` (source lines 224-268). -/
def get_my_leaves (rows : Except String (List LeaveReqRow)) : JDict :=
  toolWrap
    (match rows with
    | Except.error e => Except.error e
    | Except.ok rs =>
      Except.ok [("success", JVal.b true),
        ("leaves", JVal.arr (rs.map (fun l =>
          JVal.obj [("id", JVal.s l.id),
            ("type", JVal.s (l.type_name.getD "Unknown")),
            ("start", JVal.s l.start_date), ("end", JVal.s l.end_date),
            ("days", JVal.i l.total_days), ("status", JVal.s l.status),
            ("reason", JVal.s (l.reason.getD ""))]))),
        ("count", JVal.i rs.length)])

/-- A `rooms` row. -/
structure RoomRow where
  id : String
  name : String
  capacity : Option Int
  location : Option String
  amenities : List String
deriving DecidableEq, Repr

/-- `list_rooms` (source lines 271-297). -/
def list_rooms (rooms : Except String (List RoomRow)) : JDict :=
  toolWrap
    (match rooms with
    | Except.error e => Except.error e
    | Except.ok rs =>
      Except.ok [("success", JVal.b true),
        ("rooms", JVal.arr (rs.map (fun r =>
          JVal.obj [("id", JVal.s r.id), ("name", JVal.s r.name),
            ("capacity", match r.capacity with | some n => JVal.i n | none => JVal.s "N/A"),
            ("location", JVal.s (r.location.getD "N/A")),
            ("amenities", JVal.arr (r.amenities.map JVal.s))]))),
        ("count", JVal.i rs.length)])

/-- A `room_bookings` row (fields read by the availability check). -/
structure BookingRow where
  title : String
  start_time : String
  end_time : String
deriving DecidableEq, Repr

/-- The interval-overlap test (source line 340):
`not (end_dt <= b_start or start_dt >= b_end)` on time strings. -/
def overlapB (start_dt end_dt b_start b_end : String) : Bool :=
  !(strLeB end_dt b_start || strLeB b_end start_dt)

/-- Oracle environment of `check_room_availability`. -/
structure RoomCheckEnv where
  room_lookup : Except String (List RoomRow)
  bookings : Except String (List BookingRow)

/-- `check_room_availability` (source lines 300-363). -/
def check_room_availability (env : RoomCheckEnv)
    (room_name date start_time end_time : String) : JDict :=
  toolWrap
    (match env.room_lookup with
    | Except.error e => Except.error e
    | Except.ok [] =>
      Except.ok [("success", JVal.b false),
        ("error", JVal.s ("Room '" ++ room_name ++ "' not found"))]
    | Except.ok (room :: _) =>
      let start_dt := date ++ "T" ++ start_time ++ ":00"
      let end_dt := date ++ "T" ++ end_time ++ ":00"
      match env.bookings with
      | Except.error e => Except.error e
      | Except.ok bs =>
        let conflicts := bs.filter (fun b =>
          overlapB start_dt end_dt (b.start_time.take 16) (b.end_time.take 16))
        if !conflicts.isEmpty then
          Except.ok [("success", JVal.b true), ("available", JVal.b false),
            ("room", JVal.s room.name),
            ("conflicts", JVal.arr (conflicts.map (fun b =>
              JVal.obj [("title", JVal.s b.title),
                ("time", JVal.s (b.start_time.take 16 ++ " - " ++ b.end_time.take 16))]))),
            ("suggestion", JVal.s "Try a different time slot")]
        else
          Except.ok [("success", JVal.b true), ("available", JVal.b true),
            ("room", JVal.s room.name),
            ("time_slot", JVal.s (start_time ++ " - " ++ end_time))])

/-- Oracle environment of `book_room`. -/
structure BookRoomEnv where
  room_lookup : Except String (List RoomRow)
  all_rooms : Except String (List String)
  bookings : Except String (List BookingRow)
  insert_booking : Except String (List String)

/-- `book_room` (source lines 366-456). -/
def book_room (env : BookRoomEnv)
    (room_name title date start_time end_time description : String) : JDict :=
  toolWrap
    (match env.room_lookup with
    | Except.error e => Except.error e
    | Except.ok [] =>
      match env.all_rooms with
      | Except.error e => Except.error e
      | Except.ok names =>
        Except.ok [("success", JVal.b false),
          ("error", JVal.s ("Room '" ++ room_name ++ "' not found")),
          ("available_rooms", JVal.arr (names.map JVal.s))]
    | Except.ok (room :: _) =>
      let start_dt := date ++ "T" ++ start_time ++ ":00"
      let end_dt := date ++ "T" ++ end_time ++ ":00"
      if strLeB end_time start_time then
        Except.ok [("success", JVal.b false),
          ("error", JVal.s "End time must be after start time")]
      else
        match env.bookings with
        | Except.error e => Except.error e
        | Except.ok bs =>
          match bs.find? (fun b =>
            overlapB start_dt end_dt (b.start_time.take 16) (b.end_time.take 16)) with
          | some b =>
            Except.ok [("success", JVal.b false),
              ("error", JVal.s ("Room already booked: " ++ b.title ++ " (" ++
                b.start_time.take 16 ++ " - " ++ b.end_time.take 16 ++ ")"))]
          | none =>
            match env.insert_booking with
            | Except.error e => Except.error e
            | Except.ok ids =>
              Except.ok [("success", JVal.b true),
                ("message", JVal.s "✅ Room booked successfully!"),
                ("details", JVal.obj [("room", JVal.s room.name), ("title", JVal.s title),
                  ("date", JVal.s date),
                  ("time", JVal.s (start_time ++ " - " ++ end_time)),
                  ("booking_id", match ids with | x :: _ => JVal.s x | [] => JVal.null)])])

/-- A user's `room_bookings` row with joined room name. -/
structure MyBookingRow where
  room_name : Option String
  title : String
  start_time : String
  end_time : String
  status : String
deriving DecidableEq, Repr

/-- `get_my_bookings` (source lines 459-491). -/
def get_my_bookings (rows : Except String (List MyBookingRow)) : JDict :=
  toolWrap
    (match rows with
    | Except.error e => Except.error e
    | Except.ok bs =>
      Except.ok [("success", JVal.b true),
        ("bookings", JVal.arr (bs.map (fun b =>
          JVal.obj [("room", JVal.s (b.room_name.getD "Unknown")),
            ("title", JVal.s b.title),
            ("start", JVal.s b.start_time), ("end", JVal.s b.end_time),
            ("status", JVal.s b.status)]))),
        ("count", JVal.i bs.length)])

/-- A `claim_categories` row. -/
structure CatRow where
  id : String
  name : String
  max_amount : Option Int
  description : Option String
deriving DecidableEq, Repr

/-- `get_claim_categories` (source lines 494-519); a missing or zero
(`falsy`) `max_amount` maps to `None`. -/
def get_claim_categories (rows : Except String (List CatRow)) : JDict :=
  toolWrap
    (match rows with
    | Except.error e => Except.error e
    | Except.ok cs =>
      Except.ok [("success", JVal.b true),
        ("categories", JVal.arr (cs.map (fun c =>
          JVal.obj [("id", JVal.s c.id), ("name", JVal.s c.name),
            ("max_amount", match c.max_amount with
              | some n => if n = 0 then JVal.null else JVal.i n
              | none => JVal.null),
            ("description", JVal.s (c.description.getD ""))])))])

/-- Oracle environment of `submit_claim`. -/
structure SubmitClaimEnv where
  cat_lookup : Except String (List CatRow)
  all_cats : Except String (List (String × Option Int))
  insert_claim : Except String (List String)

/-- `submit_claim` (source lines 522-598); the limit check fires only for
a truthy (present, non-zero) `max_amount`. -/
def submit_claim (env : SubmitClaimEnv) (user_id category : String) (amount : Int)
    (description : String) : JDict :=
  toolWrap
    (match env.cat_lookup with
    | Except.error e => Except.error e
    | Except.ok [] =>
      match env.all_cats with
      | Except.error e => Except.error e
      | Except.ok cats =>
        Except.ok [("success", JVal.b false),
          ("error", JVal.s ("Category '" ++ category ++ "' not found")),
          ("available_categories", JVal.arr (cats.map (fun c =>
            JVal.obj [("name", JVal.s c.1),
              ("max", match c.2 with | some n => JVal.i n | none => JVal.null)])))]
    | Except.ok (cat :: _) =>
      let exceeded := match cat.max_amount with
        | some mx => if mx = 0 then false else decide (amount > mx)
        | none => false
      if exceeded then
        Except.ok [("success", JVal.b false),
          ("error", JVal.s ("Amount RM" ++ toString amount ++ " exceeds limit")),
          ("max_allowed", match cat.max_amount with
            | some n => JVal.i n
            | none => JVal.null),
          ("suggestion", JVal.s ("Maximum for " ++ cat.name ++ " is RM" ++
            (match cat.max_amount with | some n => toString n | none => "")))]
      else if amount ≤ 0 then
        Except.ok [("success", JVal.b false), ("error", JVal.s "Amount must be positive")]
      else
        match env.insert_claim with
        | Except.error e => Except.error e
        | Except.ok ids =>
          Except.ok [("success", JVal.b true), ("message", JVal.s "✅ Claim submitted!"),
            ("details", JVal.obj [("category", JVal.s cat.name),
              ("amount", JVal.s ("RM" ++ toString amount)),
              ("description", JVal.s description), ("status", JVal.s "pending"),
              ("claim_id", match ids with | x :: _ => JVal.s x | [] => JVal.null)])])

/-- A `claims` row with joined category name. -/
structure ClaimRow where
  cat_name : Option String
  amount : Int
  description : Option String
  claim_date : String
  status : String
deriving DecidableEq, Repr

/-- `get_my_claims` (source lines 601-648). -/
def get_my_claims (rows : Except String (List ClaimRow)) : JDict :=
  toolWrap
    (match rows with
    | Except.error e => Except.error e
    | Except.ok cs =>
      let total_pending :=
        (cs.filter (fun c => c.status = "pending")).foldl (fun a c => a + c.amount) 0
      Except.ok [("success", JVal.b true),
        ("claims", JVal.arr (cs.map (fun c =>
          JVal.obj [("category", JVal.s (c.cat_name.getD "Unknown")),
            ("amount", JVal.s ("RM" ++ toString c.amount)),
            ("description", JVal.s (c.description.getD "")),
            ("date", JVal.s c.claim_date), ("status", JVal.s c.status)]))),
        ("count", JVal.i cs.length),
        ("total_pending", JVal.s ("RM" ++ toString total_pending))])

/-- The `datetime.now()` data read by `get_today_info`. -/
structure TodayInfo where
  date : String
  day : String
  time : String
  year : Int
  month : String
  week_number : Int
deriving DecidableEq, Repr

/-- `get_today_info` (source lines 651-668): pure formatting of the
current date, with no `try/except` wrapper and — unlike every other tool
— no `success` key in its result. -/
def get_today_info (now : TodayInfo) : JDict :=
  [("date", JVal.s now.date), ("day", JVal.s now.day), ("time", JVal.s now.time),
   ("year", JVal.i now.year), ("month", JVal.s now.month),
   ("week_number", JVal.i now.week_number)]

/-- A `match_knowledge_base` result row. -/
structure PolicyRow where
  content : String
  similarity : Int
deriving DecidableEq, Repr

/-- Oracle environment of `search_policy`: the embedding call (an empty
vector is the falsy-vector branch) and the RPC match query. -/
structure SearchPolicyEnv where
  vector : Except String (List Int)
  match_rows : Except String (List PolicyRow)

/-- `search_policy` (source lines 671-742). -/
def search_policy (env : SearchPolicyEnv) : JDict :=
  toolWrap
    (match env.vector with
    | Except.error e => Except.error e
    | Except.ok [] =>
      Except.ok [("success", JVal.b false),
        ("error", JVal.s "Gagal menjana carian AI. Cuba lagi jap lagi.")]
    | Except.ok (_ :: _) =>
      match env.match_rows with
      | Except.error e => Except.error e
      | Except.ok [] =>
        Except.ok [("success", JVal.b true),
          ("info", JVal.s "Tiada polisi dijumpai berkaitan query tersebut dalam handbook.")]
      | Except.ok rs =>
        Except.ok [("success", JVal.b true),
          ("results", JVal.arr (rs.map (fun r =>
            JVal.obj [("content", JVal.s r.content),
              ("similarity", JVal.i r.similarity)]))),
          ("count", JVal.i rs.length)])

/-- A `nudges` row. -/
structure NudgeRow where
  id : String
  ntype : String
  title : String
  content : String
  created_at : String
deriving DecidableEq, Repr

/-- `get_my_nudges` (source lines 745-778). -/
def get_my_nudges (rows : Except String (List NudgeRow)) : JDict :=
  toolWrap
    (match rows with
    | Except.error e => Except.error e
    | Except.ok ns =>
      Except.ok [("success", JVal.b true),
        ("nudges", JVal.arr (ns.map (fun n =>
          JVal.obj [("id", JVal.s n.id), ("type", JVal.s n.ntype),
            ("title", JVal.s n.title),
            ("content", JVal.s n.content), ("created_at", JVal.s n.created_at)]))),
        ("count", JVal.i ns.length)])

theorem hasKey_cons_self (k : String) (v : JVal) (d : JDict) :
    hasKey ((k, v) :: d) k = true := by
  simp [hasKey]

/-- C6 counterexample: `get_today_info` is in the registry (`ALL_TOOLS`)
yet its result has no `success` field, refuting "every tool returns a
result object containing a boolean success field". -/
theorem claim_C6_counterexample :
    hasKey (get_today_info ⟨"2026-10-12", "Sunday", "12:00", 2026, "October", 41⟩)
      "success" = false ∧
    (get_today_info ⟨"2026-10-12", "Sunday", "12:00", 2026, "October", 41⟩).map Prod.fst =
      ["date", "day", "time", "year", "month", "week_number"] := by
  exact ⟨by decide, rfl⟩

/-- C6 (amended): every tool handler is a total function of its inputs
(it never raises); every tool except `get_today_info` returns, for every
input and every oracle outcome, a dictionary with a `success` key, and
any internal exception is encoded as `{"success": false, "error": e}`;
`get_today_info` returns the fixed date-info shape without a `success`
key. -/
theorem claim_C6_tool_results :
    (∀ env, hasKey (get_leave_balance env) "success" = true) ∧
    (∀ env u lt sd ed r, hasKey (apply_leave env u lt sd ed r) "success" = true) ∧
    (∀ rows, hasKey (get_my_leaves rows) "success" = true) ∧
    (∀ rows, hasKey (list_rooms rows) "success" = true) ∧
    (∀ env rn d st et, hasKey (check_room_availability env rn d st et) "success" = true) ∧
    (∀ env rn t d st et ds, hasKey (book_room env rn t d st et ds) "success" = true) ∧
    (∀ rows, hasKey (get_my_bookings rows) "success" = true) ∧
    (∀ rows, hasKey (get_claim_categories rows) "success" = true) ∧
    (∀ env u c a d, hasKey (submit_claim env u c a d) "success" = true) ∧
    (∀ rows, hasKey (get_my_claims rows) "success" = true) ∧
    (∀ env, hasKey (search_policy env) "success" = true) ∧
    (∀ rows, hasKey (get_my_nudges rows) "success" = true) ∧
    (∀ t, (get_today_info t).map Prod.fst =
      ["date", "day", "time", "year", "month", "week_number"]) ∧
    (∀ e, toolWrap (Except.error e) = errDict e) := by
  refine ⟨?_, ?_, ?_, ?_, ?_, ?_, ?_, ?_, ?_, ?_, ?_, ?_, fun t => rfl, fun e => rfl⟩
  · intro env
    unfold get_leave_balance
    try dsimp only
    repeat' split
    all_goals simp [toolWrap, hasKey, errDict]
  · intro env u lt sd ed r
    unfold apply_leave applyLeaveInsert
    try dsimp only
    repeat' split
    all_goals simp [toolWrap, hasKey, errDict]
  · intro rows
    unfold get_my_leaves
    try dsimp only
    repeat' split
    all_goals simp [toolWrap, hasKey, errDict]
  · intro rows
    unfold list_rooms
    try dsimp only
    repeat' split
    all_goals simp [toolWrap, hasKey, errDict]
  · intro env rn d st et
    unfold check_room_availability
    try dsimp only
    repeat' split
    all_goals simp [toolWrap, hasKey, errDict]
  · intro env rn t d st et ds
    unfold book_room
    try dsimp only
    repeat' split
    all_goals simp [toolWrap, hasKey, errDict]
  · intro rows
    unfold get_my_bookings
    try dsimp only
    repeat' split
    all_goals simp [toolWrap, hasKey, errDict]
  · intro rows
    unfold get_claim_categories
    try dsimp only
    repeat' split
    all_goals simp [toolWrap, hasKey, errDict]
  · intro env u c a d
    unfold submit_claim
    try dsimp only
    repeat' split
    all_goals simp [toolWrap, hasKey, errDict]
  · intro rows
    unfold get_my_claims
    try dsimp only
    repeat' split
    all_goals simp [toolWrap, hasKey, errDict]
  · intro env
    unfold search_policy
    try dsimp only
    repeat' split
    all_goals simp [toolWrap, hasKey, errDict]
  · intro rows
    unfold get_my_nudges
    try dsimp only
    repeat' split
    all_goals simp [toolWrap, hasKey, errDict]
